import Mathlib

/-!
# Value marshaling and interface tables in `app/internal/windows`

A shallow embedding of the `Variant` wire record of `windows.go`, its typed
setters (`SetBool`, `SetInt32`, `SetString`), its decoder (`ToGoValue`), the
thin wrappers around the OLE automation entry points (`SysAllocString`,
`VariantClear`, `SafeArrayCreate`, `SafeArrayCreateVector`,
`SafeArrayPutElement`), the wrappers of the UI Automation event entry points,
the layout of the interface tables, of `GUID` and of `Variant`, the event
enumerations, the window-long, window-position and timer wrappers of `user32`,
and `WindowPlacement`. The provider object (interface negotiation, reference
count, disconnect) is not in the source; it is modelled from the specification
and every such definition says so.

Conventions of the embedding:

* machine integers are `Nat` (unsigned) or `Int` (signed); a conversion that
  can wrap is written with an explicit `% 2 ^ w`;
* `uintptr` has the width of the target, `PtrSize.bits` (32 or 64);
* a method with a pointer receiver takes the record and returns the record;
  where the source takes the address of a field, the address of the record is
  an explicit argument;
* a platform entry point (`proc.Call`) is a function argument, so every theorem
  holds for whatever the platform answers;
* Go strings are Lean strings (sequences of Unicode scalar values), except that
  a string decoded from an unpaired surrogate is given by its bytes; Go errors
  are their messages, `nil` errors are `none`.
-/

namespace windows

/-! ## Machine words -/

/-- Width of `uintptr` on the target: Go builds for Windows on 386 and arm
(32 bits) and on amd64 and arm64 (64 bits). -/
inductive PtrSize where
  | p32
  | p64
  deriving DecidableEq, Repr

/-- Number of bits of a `uintptr`. -/
def PtrSize.bits : PtrSize → Nat
  | .p32 => 32
  | .p64 => 64

/-- Go conversion `uintptr(x)` of a signed integer: two's complement,
sign-extended or truncated to the pointer width. -/
def uintptrOfInt (ps : PtrSize) (x : Int) : Nat :=
  (x % (2 : Int) ^ ps.bits).toNat

/-- Go conversion `uintptr(x)` of an unsigned integer: truncation to the
pointer width. -/
def uintptrOfNat (ps : PtrSize) (x : Nat) : Nat :=
  x % 2 ^ ps.bits

/-- Go conversion `int32(x)` of an unsigned word: the low 32 bits, read as a
two's complement number. -/
def int32OfWord (x : Nat) : Int :=
  if x % 2 ^ 32 < 2 ^ 31 then ((x % 2 ^ 32 : Nat) : Int)
  else ((x % 2 ^ 32 : Nat) : Int) - (2 : Int) ^ 32

/-- Go expression `^uintptr(0)`: every bit of the word set. -/
def allOnes (ps : PtrSize) : Nat :=
  2 ^ ps.bits - 1

/-- The 16-bit units a `uintptr` occupies in memory, lowest address first
(every Windows target is little-endian). -/
def wordUnits (ps : PtrSize) (x : Nat) : List Nat :=
  (List.range (ps.bits / 16)).map (fun k => x / 2 ^ (16 * k) % 2 ^ 16)

/-! ## The `VARIANT_TYPE` tags and the `Variant` record -/

def VT_EMPTY : Nat := 0
def VT_NULL : Nat := 1
def VT_I2 : Nat := 2
def VT_I4 : Nat := 3
def VT_R4 : Nat := 4
def VT_R8 : Nat := 5
def VT_CY : Nat := 6
def VT_DATE : Nat := 7
def VT_BSTR : Nat := 8
def VT_DISPATCH : Nat := 9
def VT_ERROR : Nat := 10
def VT_BOOL : Nat := 11
def VT_VARIANT : Nat := 12
def VT_UNKNOWN : Nat := 13
def VT_DECIMAL : Nat := 14

/-- The status `S_OK`. -/
def S_OK : Nat := 0x00000000

/-- The record `Variant`. The blank trailing field `_ uintptr` of the source
is the field `pad`; Go code cannot name it, the platform can write it. -/
structure Variant where
  VT : Nat
  Reserved1 : Nat
  Reserved2 : Nat
  Reserved3 : Nat
  Val : Nat
  pad : Nat
  deriving DecidableEq, Repr

/-- The zero value `Variant{}` (what `var v Variant` declares). -/
def Variant.zero : Variant :=
  { VT := 0, Reserved1 := 0, Reserved2 := 0, Reserved3 := 0, Val := 0, pad := 0 }

/-- Byte offset of the field `Val` in `Variant`: the tag and the three reserved
fields take two bytes each, and 8 is aligned for both pointer widths. -/
def Variant.offsetVal : Nat := 8

/-! ## Dynamic values -/

/-- A value of type `any`, for the dynamic types this file boxes. -/
inductive GoAny where
  | nil
  | int32 (i : Int)
  | string (s : String)
  /-- A string whose bytes are not valid UTF-8, by its bytes. -/
  | stringBytes (bytes : List Nat)
  | bool (b : Bool)
  | unsafePointer (addr : Nat)
  | uintptr (n : Nat)
  | ptrSAFEARRAY (addr : Nat)
  deriving DecidableEq, Repr

/-- The type assertion `x.(*SAFEARRAY)` in its comma-ok form: it succeeds only
when the dynamic type of `x` is `*SAFEARRAY`; otherwise the pointer is the zero
value `nil` (address 0) and `ok` is false. -/
def GoAny.assertPtrSAFEARRAY : GoAny → Nat × Bool
  | .ptrSAFEARRAY a => (a, true)
  | _ => (0, false)

/-- How a call left its function: by returning, or by a `panic`. -/
inductive Exit where
  | normal
  | panic (msg : String)
  deriving DecidableEq, Repr

/-! ## UTF-16 helpers of `golang.org/x/sys/windows`, `syscall` and `unicode/utf16` -/

/-- Function `utf16.Encode` on one rune that is a Unicode scalar value: one unit
below 0x10000, a surrogate pair from there on. -/
def utf16EncodeRune (c : Char) : List Nat :=
  if c.toNat < 0x10000 then [c.toNat]
  else [0xd800 + (c.toNat - 0x10000) / 0x400 % 0x400, 0xdc00 + (c.toNat - 0x10000) % 0x400]

/-- Function `utf16.Encode`. -/
def utf16Encode (rs : List Char) : List Nat :=
  rs.flatMap utf16EncodeRune

/-- Function `decodeWTF16` of `syscall`, which `UTF16ToString` decodes with, by
the code points whose bytes it appends: a unit outside the surrogate range is a
code point, a high surrogate followed by a low surrogate is one code point, and
an unpaired surrogate stays as it is, to be written in the three-byte form of
WTF-8. -/
def decodeWTF16 : List Nat → List Nat
  | [] => []
  | [r] => [r]
  | r :: r2 :: rest =>
    if r < 0xd800 ∨ 0xe000 ≤ r then r :: decodeWTF16 (r2 :: rest)
    else if 0xd800 ≤ r ∧ r < 0xdc00 ∧ 0xdc00 ≤ r2 ∧ r2 < 0xe000 then
      ((r - 0xd800) * 0x400 + (r2 - 0xdc00) + 0x10000) :: decodeWTF16 rest
    else r :: decodeWTF16 (r2 :: rest)

/-- The bytes appended for one code point: those of `utf8.AppendRune`, and for
an unpaired surrogate the same three-byte form. -/
def utf8Bytes (r : Nat) : List Nat :=
  if r < 0x80 then [r]
  else if r < 0x800 then [0xC0 + r / 0x40, 0x80 + r % 0x40]
  else if r < 0x10000 then [0xE0 + r / 0x1000, 0x80 + r / 0x40 % 0x40, 0x80 + r % 0x40]
  else [0xF0 + r / 0x40000, 0x80 + r / 0x1000 % 0x40, 0x80 + r / 0x40 % 0x40, 0x80 + r % 0x40]

/-- Whether a code point is a Unicode scalar value, that is, no surrogate. -/
def isScalarValue (r : Nat) : Bool :=
  r < 0xd800 || (0xe000 ≤ r && r < 0x110000)

/-- A string as the decoder returns it: text when it encodes Unicode scalar
values only, and its bytes when an unpaired surrogate makes them invalid
UTF-8. -/
inductive GoString where
  | text (s : String)
  | bytes (bs : List Nat)
  deriving DecidableEq, Repr

/-- The string built from decoded code points. -/
def GoString.ofCodePoints (cps : List Nat) : GoString :=
  if cps.all isScalarValue then .text (String.mk (cps.map Char.ofNat))
  else .bytes (cps.flatMap utf8Bytes)

/-- A decoded string boxed as `any`. -/
def GoString.toAny : GoString → GoAny
  | .text s => .string s
  | .bytes bs => .stringBytes bs

/-- Function `UTF16FromString`: a string with a NUL is refused with `EINVAL`,
any other string is encoded and terminated by a NUL unit. -/
def UTF16FromString (s : String) : Except String (List Nat) :=
  if s.toList.any (fun c => c.toNat = 0) then .error "invalid argument"
  else .ok (utf16Encode s.toList ++ [0])

/-- The units before the first NUL unit; `none` when the scan leaves the
modelled memory before it meets a NUL (an access violation). -/
def unitsToNul : List Nat → Option (List Nat)
  | [] => none
  | u :: us => if u = 0 then some [] else (unitsToNul us).map (fun l => u :: l)

/-- Function `UTF16PtrToString` for a non-nil pointer, applied to the units
stored from that pointer on. -/
def UTF16PtrToString (mem : List Nat) : Option GoString :=
  (unitsToNul mem).map (fun us => GoString.ofCodePoints (decodeWTF16 us))

/-! ## Wrappers of the OLE automation entry points -/

/-- Hexadecimal rendering of the verb `%#x`. -/
def fmtHex (n : Nat) : String :=
  "0x" ++ String.mk (Nat.toDigits 16 n)

/-- Function `SysAllocString`. The argument `sysAlloc` is the platform entry
point: it receives the NUL-terminated units and answers the address of the new
BSTR, or 0. -/
def SysAllocString (sysAlloc : List Nat → Nat) (s : String) : Nat × Option String :=
  match UTF16FromString s with
  | .error err => (0, some ("converting string: " ++ err))
  | .ok units =>
    let ret := sysAlloc units
    if ret = 0 then (0, some ("SysAllocString failed: " ++ fmtHex ret))
    else (ret, none)

/-- Function `VariantClear`. The argument `clear` is the platform entry point:
it answers a status and the new contents of the record it was pointed at. -/
def VariantClear (clear : Variant → Nat × Variant) (pvarg : Variant) :
    Variant × Option String :=
  let r := (clear pvarg).1
  if r ≠ 0 then ((clear pvarg).2, some ("VariantClear failed: " ++ fmtHex r))
  else ((clear pvarg).2, none)

/-- Function `SafeArrayCreate`. The argument `call` is the platform entry point
behind `proc.Call`: it answers the returned word and the last-error value. The
result is the pair (array pointer, error), the nil pointer being 0. -/
def SafeArrayCreate (ps : PtrSize) (call : Nat → Nat → Nat → Nat × String)
    (vt cDims rgsabound : Nat) : Nat × Option String :=
  let res := call (uintptrOfNat ps vt) (uintptrOfNat ps cDims) rgsabound
  let r := res.1
  let err := res.2
  let (sa, ok) := (GoAny.uintptr r).assertPtrSAFEARRAY
  if !ok then (0, some ("SafeArrayCreate failed: " ++ err))
  else (sa, none)

/-- Function `SafeArrayCreateVector`, with the same conventions. -/
def SafeArrayCreateVector (ps : PtrSize) (call : Nat → Nat → Nat → Nat × String)
    (vt : Nat) (lLbound : Int) (cElements : Nat) : Nat × Option String :=
  let res := call (uintptrOfNat ps vt) (uintptrOfInt ps lLbound) (uintptrOfNat ps cElements)
  let r := res.1
  let err := res.2
  let (sa, ok) := (GoAny.uintptr r).assertPtrSAFEARRAY
  if !ok then (0, some ("SafeArrayCreateVector failed: " ++ err))
  else (sa, none)

/-! ## The typed setters and the decoder -/

/-- Method `(*Variant).SetBool`. -/
def SetBool (ps : PtrSize) (v : Variant) (b : Bool) : Variant :=
  let v1 := { v with VT := VT_BOOL }
  if b then { v1 with Val := allOnes ps }
  else { v1 with Val := 0 }

/-- Method `(*Variant).SetInt32`. -/
def SetInt32 (ps : PtrSize) (v : Variant) (i32 : Int) : Variant :=
  let v1 := { v with VT := VT_I4 }
  { v1 with Val := uintptrOfInt ps i32 }

/-- Method `(*Variant).SetString`: the record as the call leaves it, and how the
call ended. -/
def SetString (sysAlloc : List Nat → Nat) (v : Variant) (str : String) : Variant × Exit :=
  let v1 := { v with VT := VT_BSTR }
  match SysAllocString sysAlloc str with
  | (_, some _) => (v1, .panic "allocating string failed")
  | (bstr, none) => ({ v1 with Val := bstr }, .normal)

/-- Method `(*Variant).ToGoValue`. The receiver points at address `self`; the
units in `after` are the memory that follows the record. Expression `&v.Val` is
the address `self + 8`, and the units stored from there on are those of `Val`,
of the blank field, and of `after`. The result is `none` when the string scan
leaves the modelled memory. -/
def ToGoValue (ps : PtrSize) (self : Nat) (after : List Nat) (v : Variant) : Option GoAny :=
  if v.VT = VT_I4 then some (.int32 (int32OfWord v.Val))
  else if v.VT = VT_BSTR then
    (UTF16PtrToString (wordUnits ps v.Val ++ wordUnits ps v.pad ++ after)).map GoString.toAny
  else if v.VT = VT_BOOL then some (.bool (v.Val != 0))
  else if v.VT = VT_UNKNOWN then some (.unsafePointer (self + Variant.offsetVal))
  else some .nil

/-! ## Array element store -/

/-- Function `SafeArrayPutElement`. The argument `put` is the platform entry
point; it is handed the array pointer, the index it reads through the pointer
`&rgIndices`, and `pv`, and it answers a status. -/
def SafeArrayPutElement (put : Nat → Nat → Nat → Nat) (sa rgIndices pv : Nat) :
    Option String :=
  let r := put sa rgIndices pv
  if r ≠ S_OK then some ("SafeArrayPutElement failed: " ++ fmtHex r)
  else none

/-! ## Status codes and event enumerations -/

def E_ABORT : Nat := 0x80004004
def E_ACCESSDENIED : Nat := 0x80070005
def E_FAIL : Nat := 0x80004005
def E_HANDLE : Nat := 0x80070006
def E_INVALIDARG : Nat := 0x80070057
def E_NOINTERFACE : Nat := 0x80004002
def E_NOTIMPL : Nat := 0x80004001
def E_OUTOFMEMORY : Nat := 0x8007000E
def E_POINTER : Nat := 0x80004003
def E_UNEXPECTED : Nat := 0x8000FFFF

/-- The eleven status codes the package declares. -/
def declaredStatus : List Nat :=
  [S_OK, E_ABORT, E_ACCESSDENIED, E_FAIL, E_HANDLE, E_INVALIDARG, E_NOINTERFACE,
    E_NOTIMPL, E_OUTOFMEMORY, E_POINTER, E_UNEXPECTED]

def StructureChangeType_ChildAdded : Nat := 0
def StructureChangeType_ChildRemoved : Nat := 1
def StructureChangeType_ChildrenInvalidated : Nat := 2
def StructureChangeType_ChildrenBulkAdded : Nat := 3
def StructureChangeType_ChildrenBulkRemoved : Nat := 4
def StructureChangeType_ChildrenReordered : Nat := 5

def NotificationKind_ItemAdded : Nat := 0
def NotificationKind_ItemRemoved : Nat := 1
def NotificationKind_ActionCompleted : Nat := 2
def NotificationKind_ActionAborted : Nat := 3
def NotificationKind_Other : Nat := 4

def NotificationProcessing_ImportantAll : Nat := 0
def NotificationProcessing_ImportantMostRecent : Nat := 1
def NotificationProcessing_All : Nat := 2
def NotificationProcessing_MostRecent : Nat := 3
def NotificationProcessing_CurrentThenMostRecent : Nat := 4

/-! ## Wrappers of the UI Automation entry points

These wrappers are modelled with the actions they perform, in order, so that a
theorem can say which entry points a wrapper reaches and which it does not. -/

/-- One action of a wrapper that the outside can observe. -/
inductive Event where
  /-- A call `proc.Call(args...)` of the named entry point. -/
  | call (proc : String) (args : List Nat)
  /-- A line written by `fmt.Println`. -/
  | println (line : String)
  /-- A store by the wrapper through a pointer it was given. -/
  | store (addr : Nat)
  deriving DecidableEq, Repr

/-- The platform as a wrapper sees it: the word a call of the named entry point
answers for the given argument words. -/
abbrev Platform := String → List Nat → Nat

/-- The calls among a list of actions. -/
def Event.calls : List Event → List (String × List Nat)
  | [] => []
  | .call p a :: es => (p, a) :: Event.calls es
  | _ :: es => Event.calls es

/-- The addresses stored to among a list of actions. -/
def Event.stores : List Event → List Nat
  | [] => []
  | .store a :: es => a :: Event.stores es
  | _ :: es => Event.stores es

/-- Function `UiaRaiseChangesEvent`: the error, and the actions performed. -/
def UiaRaiseChangesEvent (ps : PtrSize) (plat : Platform) (pProvider : Nat)
    (eventIdCount : Int) (pUiaChanges : Nat) : Option String × List Event :=
  let args := [pProvider, uintptrOfInt ps eventIdCount, pUiaChanges]
  let r := plat "UiaRaiseChangesEvent" args
  if r ≠ 0 then
    (some ("UiaRaiseChangesEvent failed: " ++ fmtHex r), [.call "UiaRaiseChangesEvent" args])
  else (none, [.call "UiaRaiseChangesEvent" args])

/-- Function `UiaRaiseNotificationEvent`: the error, and the actions performed. -/
def UiaRaiseNotificationEvent (ps : PtrSize) (plat : Platform) (pProvider : Nat)
    (notificationKind notificationProcessing : Nat) (displayString activityId : Nat) :
    Option String × List Event :=
  let args := [pProvider, uintptrOfNat ps notificationKind,
    uintptrOfNat ps notificationProcessing, displayString, activityId]
  let r := plat "UiaRaiseNotificationEvent" args
  if r ≠ 0 then
    (some ("UiaRaiseNotificationEvent failed: " ++ fmtHex r),
      [.call "UiaRaiseNotificationEvent" args])
  else (none, [.call "UiaRaiseNotificationEvent" args])

/-- Function `UiaRaiseAutomationEvent`: the status, and the actions performed. -/
def UiaRaiseAutomationEvent (ps : PtrSize) (plat : Platform) (pProvider id : Nat) :
    Nat × List Event :=
  let args := [pProvider, uintptrOfNat ps id]
  let r := plat "UiaRaiseAutomationEvent" args
  if r ≠ S_OK then (r, [.call "UiaRaiseAutomationEvent" args])
  else (S_OK, [.call "UiaRaiseAutomationEvent" args])

/-- Function `UiaRaiseAutomationPropertyChangedEvent`: the status, and the
actions performed. The Variants are reached only through their addresses
`oldV` and `newV`, which go to the platform as they are. -/
def UiaRaiseAutomationPropertyChangedEvent (ps : PtrSize) (plat : Platform)
    (pProvider id oldV newV : Nat) : Nat × List Event :=
  let args := [pProvider, uintptrOfNat ps id, oldV, newV]
  let r := plat "UiaRaiseAutomationPropertyChangedEvent" args
  if r ≠ S_OK then (r, [.call "UiaRaiseAutomationPropertyChangedEvent" args])
  else (S_OK, [.call "UiaRaiseAutomationPropertyChangedEvent" args])

/-- Function `UiaRaiseStructureChangedEvent`: the status, and the actions
performed; a status other than `S_OK` is printed before it is returned. -/
def UiaRaiseStructureChangedEvent (ps : PtrSize) (plat : Platform)
    (pProvider structureChangeType pRuntimeId cRuntimeIdLen : Nat) : Nat × List Event :=
  let args := [pProvider, uintptrOfNat ps structureChangeType, pRuntimeId, cRuntimeIdLen]
  let r := plat "UiaRaiseStructureChangedEvent" args
  if r ≠ S_OK then
    (r, [.call "UiaRaiseStructureChangedEvent" args, .println (toString r)])
  else (S_OK, [.call "UiaRaiseStructureChangedEvent" args])

/-- Function `UiaHostProviderFromHwnd`: the status, and the actions performed. -/
def UiaHostProviderFromHwnd (plat : Platform) (hwnd retVal : Nat) : Nat × List Event :=
  let args := [hwnd, retVal]
  let r := plat "UiaHostProviderFromHwnd" args
  if r ≠ 0 then (r, [.call "UiaHostProviderFromHwnd" args])
  else (0, [.call "UiaHostProviderFromHwnd" args])

/-! ## Record layout

The records below carry `structs.HostLayout`, so their fields are laid out in
declaration order, each at the next offset aligned for its type. An embedded
record whose fields all have one alignment lies inline, field after field. -/

/-- Number of bytes of a `uintptr`. -/
def PtrSize.bytes (ps : PtrSize) : Nat :=
  ps.bits / 8

/-- The field types the laid-out records use. -/
inductive FieldType where
  | hostLayout
  | uint8
  | uint16
  | uint32
  | uintptr
  deriving DecidableEq, Repr

/-- Size in bytes of a field type; the marker `structs.HostLayout` has size 0. -/
def FieldType.size (ps : PtrSize) : FieldType → Nat
  | .hostLayout => 0
  | .uint8 => 1
  | .uint16 => 2
  | .uint32 => 4
  | .uintptr => ps.bytes

/-- Alignment in bytes of a field type. -/
def FieldType.align (ps : PtrSize) : FieldType → Nat
  | .hostLayout => 1
  | .uint8 => 1
  | .uint16 => 2
  | .uint32 => 4
  | .uintptr => ps.bytes

/-- A field of a record declaration; the blank field is named by an underscore. -/
structure Field where
  name : String
  type : FieldType
  deriving DecidableEq, Repr

/-- The least multiple of `a` that is not below `n`. -/
def alignUp (n a : Nat) : Nat :=
  (n + a - 1) / a * a

/-- The fields with their byte offsets, laid out from offset `off` on. -/
def layoutFrom (ps : PtrSize) (off : Nat) : List Field → List (Field × Nat)
  | [] => []
  | f :: fs =>
    (f, alignUp off (f.type.align ps)) ::
      layoutFrom ps (alignUp off (f.type.align ps) + f.type.size ps) fs

/-- The fields of a record with their byte offsets. -/
def layout (ps : PtrSize) (decl : List Field) : List (Field × Nat) :=
  layoutFrom ps 0 decl

/-- The first offset after the last field. -/
def layoutEnd (ps : PtrSize) (decl : List Field) : Nat :=
  ((layout ps decl).map (fun p => p.2 + p.1.type.size ps)).foldl max 0

/-- Size of a record: the end of its last field, rounded up to the largest
alignment among its fields. -/
def structSize (ps : PtrSize) (decl : List Field) : Nat :=
  alignUp (layoutEnd ps decl) ((decl.map (fun f => f.type.align ps)).foldl max 1)

/-- The slots of an interface table: its fields that take room, by name, with
their byte offsets. -/
def slots (ps : PtrSize) (decl : List Field) : List (String × Nat) :=
  ((layout ps decl).filter (fun p => p.1.type.size ps != 0)).map (fun p => (p.1.name, p.2))

/-- The blank field `_ structs.HostLayout`. -/
def hostLayoutField : Field :=
  { name := "_", type := .hostLayout }

/-- A field of type `uintptr`. -/
def ptrField (name : String) : Field :=
  { name := name, type := .uintptr }

/-! ## The interface tables -/

def IUnknownVTable : List Field :=
  [hostLayoutField, ptrField "QueryInterface", ptrField "AddRef", ptrField "Release"]

def IUIAutomationTogglePatternVTable : List Field :=
  [hostLayoutField] ++ IUnknownVTable ++
  [ptrField "Get_CachedToggleState", ptrField "Get_CurrentToggleState", ptrField "Toggle"]

def IUIAutomationInvokePatternVTable : List Field :=
  [hostLayoutField] ++ IUnknownVTable ++ [ptrField "Invoke"]

def IRawElementProviderSimpleVTable : List Field :=
  [hostLayoutField] ++ IUnknownVTable ++
  [ptrField "Get_ProviderOptions", ptrField "GetPatternProvider", ptrField "GetPropertyValue",
    ptrField "Get_HostRawElementProvider"]

def IRawElementProviderFragmentVTable : List Field :=
  [hostLayoutField] ++ IUnknownVTable ++
  [ptrField "Navigate", ptrField "GetRuntimeId", ptrField "Get_BoundingRectangle",
    ptrField "GetEmbeddedFragmentRoots", ptrField "SetFocus", ptrField "Get_FragmentRoot"]

def IRawElementProviderFragmentRootVTable : List Field :=
  [hostLayoutField] ++ IUnknownVTable ++
  [ptrField "ElementProviderFromPoint", ptrField "GetFocus"]

def IInvokeProviderVTable : List Field :=
  [hostLayoutField] ++ IUnknownVTable ++ [ptrField "Invoke"]

def IValueProviderVTable : List Field :=
  [hostLayoutField] ++ IUnknownVTable ++
  [ptrField "SetValue", ptrField "Get_Value", ptrField "Get_IsReadOnly"]

def IScrollProviderVTable : List Field :=
  [hostLayoutField] ++ IUnknownVTable ++
  [ptrField "Scroll", ptrField "SetScrollPercent", ptrField "Get_HorizontalScrollPercent",
    ptrField "Get_VerticalScrollPercent", ptrField "Get_HorizontalViewSize",
    ptrField "Get_VerticalViewSize", ptrField "Get_HorizontallyScrollable",
    ptrField "Get_VerticallyScrollable"]

/-- Every interface table type of the package. -/
def allVTables : List (List Field) :=
  [IUnknownVTable, IRawElementProviderSimpleVTable, IRawElementProviderFragmentVTable,
    IRawElementProviderFragmentRootVTable, IInvokeProviderVTable, IValueProviderVTable,
    IScrollProviderVTable, IUIAutomationTogglePatternVTable, IUIAutomationInvokePatternVTable]

/-- The Go field that holds the platform method `m`: the same name with its
first letter in upper case, as an exported field needs. -/
def exportedName (m : String) : String :=
  m.capitalize

/-! ## The record `GUID` -/

/-- The record `GUID`. -/
structure GUID where
  Data1 : Nat
  Data2 : Nat
  Data3 : Nat
  Data4_0 : Nat
  Data4_1 : Nat
  Data4_2 : Nat
  Data4_3 : Nat
  Data4_4 : Nat
  Data4_5 : Nat
  Data4_6 : Nat
  Data4_7 : Nat
  deriving DecidableEq, Repr

/-- The declaration of `GUID`, for its layout. -/
def GUID.decl : List Field :=
  [hostLayoutField, ⟨"Data1", .uint32⟩, ⟨"Data2", .uint16⟩, ⟨"Data3", .uint16⟩,
    ⟨"Data4_0", .uint8⟩, ⟨"Data4_1", .uint8⟩, ⟨"Data4_2", .uint8⟩, ⟨"Data4_3", .uint8⟩,
    ⟨"Data4_4", .uint8⟩, ⟨"Data4_5", .uint8⟩, ⟨"Data4_6", .uint8⟩, ⟨"Data4_7", .uint8⟩]

/-- Every field of the GUID holds a value of its type. -/
def GUID.inRange (g : GUID) : Prop :=
  g.Data1 < 2 ^ 32 ∧ g.Data2 < 2 ^ 16 ∧ g.Data3 < 2 ^ 16 ∧
  g.Data4_0 < 2 ^ 8 ∧ g.Data4_1 < 2 ^ 8 ∧ g.Data4_2 < 2 ^ 8 ∧ g.Data4_3 < 2 ^ 8 ∧
  g.Data4_4 < 2 ^ 8 ∧ g.Data4_5 < 2 ^ 8 ∧ g.Data4_6 < 2 ^ 8 ∧ g.Data4_7 < 2 ^ 8

instance (g : GUID) : Decidable g.inRange := by
  unfold GUID.inRange
  infer_instance

/-- The bytes of an unsigned value of `n` bytes, lowest address first. -/
def leBytes : Nat → Nat → List Nat
  | 0, _ => []
  | n + 1, x => x % 256 :: leBytes n (x / 256)

/-- The bytes a GUID occupies in memory, field after field. -/
def GUID.bytes (g : GUID) : List Nat :=
  leBytes 4 g.Data1 ++ leBytes 2 g.Data2 ++ leBytes 2 g.Data3 ++
  [g.Data4_0 % 256, g.Data4_1 % 256, g.Data4_2 % 256, g.Data4_3 % 256,
    g.Data4_4 % 256, g.Data4_5 % 256, g.Data4_6 % 256, g.Data4_7 % 256]

/-- Go comparison `a == b` of two GUIDs: every field but the blank one is
compared. -/
def GUID.eq (a b : GUID) : Bool :=
  a.Data1 == b.Data1 && a.Data2 == b.Data2 && a.Data3 == b.Data3 &&
  a.Data4_0 == b.Data4_0 && a.Data4_1 == b.Data4_1 && a.Data4_2 == b.Data4_2 &&
  a.Data4_3 == b.Data4_3 && a.Data4_4 == b.Data4_4 && a.Data4_5 == b.Data4_5 &&
  a.Data4_6 == b.Data4_6 && a.Data4_7 == b.Data4_7

def IID_IUnknown : GUID :=
  ⟨0x00000000, 0x0000, 0x0000, 0xC0, 0x00, 0x00, 0x00, 0x00, 0x00, 0x00, 0x46⟩
def IID_IUIAutomationElement : GUID :=
  ⟨0xd22108aa, 0x8ac5, 0x49a5, 0x83, 0x7b, 0x37, 0xbb, 0xb3, 0xd7, 0x59, 0x1e⟩
def IID_IUIAutomationTogglePattern : GUID :=
  ⟨0x94cf8058, 0x9b8d, 0x4ab9, 0x8b, 0xfd, 0x4c, 0xd0, 0xa3, 0x3c, 0x8c, 0x70⟩
def IID_IUIAutomationInvokePattern : GUID :=
  ⟨0xfb377fbe, 0x8ea6, 0x46d5, 0x9c, 0x73, 0x64, 0x99, 0x64, 0x2d, 0x30, 0x59⟩
def IID_IRawElementProviderSimple : GUID :=
  ⟨0xd6dd68d1, 0x86fd, 0x4332, 0x86, 0x66, 0x9a, 0xbe, 0xde, 0xa2, 0xd2, 0x4c⟩
def IID_IRawElementProviderFragment : GUID :=
  ⟨0xf7063da8, 0x8359, 0x439c, 0x92, 0x97, 0xbb, 0xc5, 0x29, 0x9a, 0x7d, 0x87⟩
def IID_IRawElementProviderFragmentRoot : GUID :=
  ⟨0x620ce2a5, 0xab8f, 0x40a9, 0x86, 0xcb, 0xde, 0x3c, 0x75, 0x59, 0x9b, 0x58⟩
def IID_IInvokeProvider : GUID :=
  ⟨0x54fcb24b, 0xe18e, 0x47a2, 0xb4, 0xd3, 0xec, 0xcb, 0xe7, 0x75, 0x99, 0xa2⟩
def IID_IValueProvider : GUID :=
  ⟨0xc7935180, 0x6fb3, 0x4201, 0xb1, 0x74, 0x7d, 0xf7, 0x3a, 0xdb, 0xf6, 0x4a⟩
def IID_IScrollProvider : GUID :=
  ⟨0xb38b8077, 0x1fc3, 0x42a5, 0x8c, 0xae, 0xd4, 0x0c, 0x22, 0x15, 0x05, 0x5a⟩

/-! ## Layout of `Variant` -/

/-- The declaration of `Variant`, for its layout; the tag type `VARIANT_TYPE` is
a `uint16`. -/
def Variant.decl : List Field :=
  [hostLayoutField, ⟨"VT", .uint16⟩, ⟨"Reserved1", .uint16⟩, ⟨"Reserved2", .uint16⟩,
    ⟨"Reserved3", .uint16⟩, ⟨"Val", .uintptr⟩, ⟨"_", .uintptr⟩]

/-- Expression `unsafe.Sizeof(v)` for a Variant `v`: it is fixed by the type. -/
def Variant.sizeof (ps : PtrSize) (_v : Variant) : Nat :=
  structSize ps Variant.decl

/-- Byte offset of the named field, `none` when the record has no such field. -/
def offsetOf (ps : PtrSize) (decl : List Field) (name : String) : Option Nat :=
  ((layout ps decl).find? (fun p => p.1.name == name)).map Prod.snd

/-- Method `(*Variant).ToGoValue` with the record as the call leaves it: the
method has no assignment to the receiver. -/
def ToGoValueRun (ps : PtrSize) (self : Nat) (after : List Nat) (v : Variant) :
    Variant × Option GoAny :=
  (v, ToGoValue ps self after v)

/-! ## Window constants and wrappers of `user32` -/

/-- Go operator `^x` on an unsigned value of `w` bits. -/
def bitNot (w x : Nat) : Nat :=
  2 ^ w - 1 - x % 2 ^ w

/-- Constant `GWL_STYLE = ^(uintptr(16) - 1)`, of type `uintptr`. -/
def GWL_STYLE (ps : PtrSize) : Nat :=
  bitNot ps.bits (16 - 1)

/-- Constant `HWND_TOPMOST = ^(uint32(1) - 1)`, of type `uint32`. -/
def HWND_TOPMOST : Nat :=
  bitNot 32 (1 - 1)

def SW_SHOWMINIMIZED : Nat := 2
def SW_SHOWMAXIMIZED : Nat := 3

/-- Function `GetWindowLong`; `goarch` is `runtime.GOARCH`. The entry point
`_GetWindowLong32` is GetWindowLongW and `_GetWindowLong` is GetWindowLongPtrW. -/
def GetWindowLong (goarch : String) (plat : Platform) (hwnd index : Nat) : Nat × List Event :=
  if goarch = "386" then
    (plat "GetWindowLongW" [hwnd, index], [.call "GetWindowLongW" [hwnd, index]])
  else
    (plat "GetWindowLongPtrW" [hwnd, index], [.call "GetWindowLongPtrW" [hwnd, index]])

/-- Function `SetWindowLong`; `_SetWindowLong32` is SetWindowLongW and
`_SetWindowLong` is SetWindowLongPtrW. -/
def SetWindowLong (goarch : String) (hwnd idx style : Nat) : List Event :=
  if goarch = "386" then [.call "SetWindowLongW" [hwnd, idx, style]]
  else [.call "SetWindowLongPtrW" [hwnd, idx, style]]

/-- Function `SetWindowPos`; `hwndInsertAfter` is a `uint32`, the coordinates
are `int32`. -/
def SetWindowPos (ps : PtrSize) (hwnd hwndInsertAfter : Nat) (x y dx dy : Int) (style : Nat) :
    List Event :=
  [.call "SetWindowPos" [hwnd, uintptrOfNat ps hwndInsertAfter, uintptrOfInt ps x,
    uintptrOfInt ps y, uintptrOfInt ps dx, uintptrOfInt ps dy, style]]

/-- Function `KillTimer`; `lastErr` is the last-error value `proc.Call` hands
back. -/
def KillTimer (plat : Platform) (lastErr : String) (hwnd nIDEvent : Nat) :
    Option String × List Event :=
  let args := [hwnd, nIDEvent, 0, 0]
  let r := plat "SetTimer" args
  if r = 0 then (some ("KillTimer failed: " ++ lastErr), [.call "SetTimer" args])
  else (none, [.call "SetTimer" args])

/-- Function `SetTimer`; `uElapse` is a `uint32`. -/
def SetTimer (ps : PtrSize) (plat : Platform) (lastErr : String)
    (hwnd nIDEvent uElapse timerProc : Nat) : Option String × List Event :=
  let args := [hwnd, nIDEvent, uintptrOfNat ps uElapse, timerProc]
  let r := plat "SetTimer" args
  if r = 0 then (some ("SetTimer failed: " ++ lastErr), [.call "SetTimer" args])
  else (none, [.call "SetTimer" args])

/-- Function `UiaDisconnectProvider`: the error, and the actions performed. -/
def UiaDisconnectProvider (plat : Platform) (pProvider : Nat) : Option String × List Event :=
  let args := [pProvider]
  let r := plat "UiaDisconnectProvider" args
  if r ≠ 0 then
    (some ("UiaDisconnectProvider failed: " ++ fmtHex r), [.call "UiaDisconnectProvider" args])
  else (none, [.call "UiaDisconnectProvider" args])

/-! ## Window placement -/

/-- Go conversion `int32(x)` of an `int`: the low 32 bits, read as a two's
complement number. -/
def int32OfInt (x : Int) : Int :=
  (x + 2 ^ 31) % 2 ^ 32 - 2 ^ 31

/-- The record `Point`. -/
structure Point where
  X : Int
  Y : Int
  deriving DecidableEq, Repr

/-- The record `Rect`. -/
structure Rect where
  Left : Int
  Top : Int
  Right : Int
  Bottom : Int
  deriving DecidableEq, Repr

/-- The record `WindowPlacement`. -/
structure WindowPlacement where
  length : Nat
  flags : Nat
  showCmd : Nat
  ptMinPosition : Point
  ptMaxPosition : Point
  rcNormalPosition : Rect
  rcDevice : Rect
  deriving DecidableEq, Repr

/-- Method `WindowPlacement.Rect`. -/
def WindowPlacement.Rect (p : WindowPlacement) : Rect :=
  p.rcNormalPosition

/-- Method `WindowPlacement.IsMinimized`. -/
def WindowPlacement.IsMinimized (p : WindowPlacement) : Bool :=
  p.showCmd == SW_SHOWMINIMIZED

/-- Method `WindowPlacement.IsMaximized`. -/
def WindowPlacement.IsMaximized (p : WindowPlacement) : Bool :=
  p.showCmd == SW_SHOWMAXIMIZED

/-- Method `(*WindowPlacement).Set`; the arguments are of type `int`. -/
def WindowPlacement.Set (p : WindowPlacement) (Left Top Right Bottom : Int) : WindowPlacement :=
  let p1 := { p with rcNormalPosition := { p.rcNormalPosition with Left := int32OfInt Left } }
  let p2 := { p1 with rcNormalPosition := { p1.rcNormalPosition with Top := int32OfInt Top } }
  let p3 := { p2 with rcNormalPosition := { p2.rcNormalPosition with Right := int32OfInt Right } }
  { p3 with rcNormalPosition := { p3.rcNormalPosition with Bottom := int32OfInt Bottom } }

/-- The ten interface identities the package declares. -/
def allIIDs : List GUID :=
  [IID_IUnknown, IID_IUIAutomationElement, IID_IUIAutomationTogglePattern,
    IID_IUIAutomationInvokePattern, IID_IRawElementProviderSimple,
    IID_IRawElementProviderFragment, IID_IRawElementProviderFragmentRoot, IID_IInvokeProvider,
    IID_IValueProvider, IID_IScrollProvider]

/-! ## The provider object

The source declares the interface tables, the identities and the record
`SemanticVTable`; the object that answers `QueryInterface`, `AddRef`, `Release`
and `Disconnect` is not part of it and is modelled from the specification. -/

/-- The record `SemanticVTable`: one pointer per capability table, nil (0) for a
capability the provider does not have. -/
structure SemanticVTable where
  Simple : Nat
  Fragment : Nat
  FragmentRoot : Nat
  Invoke : Nat
  Value : Nat
  Scroll : Nat
  deriving DecidableEq, Repr

/-- Modelled from the spec: the states of a ProviderObject, missing from the
source. A provider is live (with a reference count of at least 1) or
disconnected, and ends freed. -/
inductive Lifecycle where
  | live
  | disconnected
  | freed
  deriving DecidableEq, Repr

/-- Modelled from the spec: the ProviderObject, missing from the source. It owns
the table of the IUnknown base interface (at address `unknown`), its capability
tables, a reference count and its state. -/
structure ProviderObject where
  unknown : Nat
  tables : SemanticVTable
  refCount : Nat
  state : Lifecycle
  deriving DecidableEq, Repr

/-- Modelled from the spec: what a call through a table entry of the provider
answers, missing from the source. A call on a freed object is undefined. -/
inductive CallResult where
  | table (addr : Nat)
  | count (n : Nat)
  | done
  | notSupported
  | disconnected
  | undefined
  deriving DecidableEq, Repr

/-- Modelled from the spec: the status word of a result where the status
vocabulary names one, Success for a table and NoSuchInterface for NotSupported;
missing from the source. -/
def CallResult.status : CallResult → Option Nat
  | .table _ => some S_OK
  | .notSupported => some E_NOINTERFACE
  | _ => none

/-- Modelled from the spec: creation of a ProviderObject, missing from the
source; the reference count starts at 1 for the implicit first owner. -/
def ProviderObject.new (unknown : Nat) (tables : SemanticVTable) : ProviderObject :=
  { unknown := unknown, tables := tables, refCount := 1, state := .live }

/-- Modelled from the spec: the identities a provider answers with their table
addresses, in match order, missing from the source: the IUnknown base interface,
then every capability table the object holds. -/
def ProviderObject.interfaces (p : ProviderObject) : List (GUID × Nat) :=
  (IID_IUnknown, p.unknown) ::
    [(IID_IRawElementProviderSimple, p.tables.Simple),
      (IID_IRawElementProviderFragment, p.tables.Fragment),
      (IID_IRawElementProviderFragmentRoot, p.tables.FragmentRoot),
      (IID_IInvokeProvider, p.tables.Invoke),
      (IID_IValueProvider, p.tables.Value),
      (IID_IScrollProvider, p.tables.Scroll)].filter (fun e => e.2 != 0)

/-- Modelled from the spec: the entry QueryInterface, missing from the source. A
linear match of the requested identity against the identities the provider
answers; a match increments the reference count and returns the table's
address, no match returns NotSupported. After a disconnect the entry returns the
Disconnected failure. -/
def QueryInterface (p : ProviderObject) (iid : GUID) : ProviderObject × CallResult :=
  match p.state with
  | .freed => (p, .undefined)
  | .disconnected => (p, .disconnected)
  | .live =>
    match p.interfaces.find? (fun e => GUID.eq e.1 iid) with
    | some e => ({ p with refCount := p.refCount + 1 }, .table e.2)
    | none => (p, .notSupported)

/-- Modelled from the spec: the entry AddRef, missing from the source. It
increments the reference count and returns the new count; after a disconnect it
is a no-op. -/
def AddRef (p : ProviderObject) : ProviderObject × CallResult :=
  match p.state with
  | .freed => (p, .undefined)
  | .disconnected => (p, .count p.refCount)
  | .live => ({ p with refCount := p.refCount + 1 }, .count (p.refCount + 1))

/-- Modelled from the spec: the entry Release, missing from the source. It
decrements the reference count and returns the new count; when the count
reaches zero the object becomes freed. After a disconnect it is a no-op. -/
def Release (p : ProviderObject) : ProviderObject × CallResult :=
  match p.state with
  | .freed => (p, .undefined)
  | .disconnected => (p, .count p.refCount)
  | .live =>
    if p.refCount - 1 = 0 then
      ({ p with refCount := p.refCount - 1, state := .freed }, .count (p.refCount - 1))
    else ({ p with refCount := p.refCount - 1 }, .count (p.refCount - 1))

/-- Modelled from the spec: a call through an interface-specific entry of a
capability table, missing from the source. After a disconnect it returns the
Disconnected failure and touches nothing. -/
def CapabilityCall (p : ProviderObject) (_slot : Nat) : ProviderObject × CallResult :=
  match p.state with
  | .freed => (p, .undefined)
  | .disconnected => (p, .disconnected)
  | .live => (p, .done)

/-- Modelled from the spec: the operation Disconnect of the hosting application,
missing from the source; it marks a live object unusable whatever its reference
count. -/
def Disconnect (p : ProviderObject) : ProviderObject :=
  match p.state with
  | .live => { p with state := .disconnected }
  | _ => p

/-- A call an outside caller can make through a table of the provider. -/
inductive ProviderOp where
  | queryInterface (iid : GUID)
  | addRef
  | release
  | capability (slot : Nat)
  deriving DecidableEq, Repr

/-- One call on the provider. -/
def ProviderObject.step (p : ProviderObject) : ProviderOp → ProviderObject × CallResult
  | .queryInterface iid => QueryInterface p iid
  | .addRef => AddRef p
  | .release => Release p
  | .capability slot => CapabilityCall p slot

/-- A sequence of calls on the provider: the object as the last call leaves it,
and the result of every call. -/
def ProviderObject.run (p : ProviderObject) : List ProviderOp → ProviderObject × List CallResult
  | [] => (p, [])
  | op :: ops => ((ProviderObject.run (p.step op).1 ops).1,
      (p.step op).2 :: (ProviderObject.run (p.step op).1 ops).2)

/-! ## Helper lemmas -/

theorem int32OfWord_uintptrOfInt (ps : PtrSize) (i : Int)
    (hlo : -(2 : Int) ^ 31 ≤ i) (hhi : i < (2 : Int) ^ 31) :
    int32OfWord (uintptrOfInt ps i) = i := by
  cases ps <;> simp only [int32OfWord, uintptrOfInt, PtrSize.bits] <;> norm_num at hlo hhi ⊢ <;>
    split <;> omega

theorem allOnes_ne_zero (ps : PtrSize) : allOnes ps ≠ 0 := by
  cases ps <;> simp [allOnes, PtrSize.bits]

theorem allOnes_ne_one (ps : PtrSize) : allOnes ps ≠ 1 := by
  cases ps <;> simp [allOnes, PtrSize.bits]

theorem SetString_VT (sysAlloc : List Nat → Nat) (v : Variant) (s : String) :
    (SetString sysAlloc v s).1.VT = VT_BSTR := by
  unfold SetString
  split <;> rfl

theorem UiaRaiseAutomationEvent_fst (ps : PtrSize) (plat : Platform) (pProvider id : Nat) :
    (UiaRaiseAutomationEvent ps plat pProvider id).1 =
      plat "UiaRaiseAutomationEvent" [pProvider, uintptrOfNat ps id] := by
  unfold UiaRaiseAutomationEvent
  by_cases h : plat "UiaRaiseAutomationEvent" [pProvider, uintptrOfNat ps id] = S_OK <;>
    simp [h]

theorem UiaRaiseAutomationPropertyChangedEvent_fst (ps : PtrSize) (plat : Platform)
    (pProvider id oldV newV : Nat) :
    (UiaRaiseAutomationPropertyChangedEvent ps plat pProvider id oldV newV).1 =
      plat "UiaRaiseAutomationPropertyChangedEvent"
        [pProvider, uintptrOfNat ps id, oldV, newV] := by
  unfold UiaRaiseAutomationPropertyChangedEvent
  by_cases h : plat "UiaRaiseAutomationPropertyChangedEvent"
    [pProvider, uintptrOfNat ps id, oldV, newV] = S_OK <;> simp [h]

theorem UiaRaiseStructureChangedEvent_fst (ps : PtrSize) (plat : Platform)
    (pProvider kind pRuntimeId cRuntimeIdLen : Nat) :
    (UiaRaiseStructureChangedEvent ps plat pProvider kind pRuntimeId cRuntimeIdLen).1 =
      plat "UiaRaiseStructureChangedEvent"
        [pProvider, uintptrOfNat ps kind, pRuntimeId, cRuntimeIdLen] := by
  unfold UiaRaiseStructureChangedEvent
  by_cases h : plat "UiaRaiseStructureChangedEvent"
    [pProvider, uintptrOfNat ps kind, pRuntimeId, cRuntimeIdLen] = S_OK <;> simp [h]

theorem UiaHostProviderFromHwnd_fst (plat : Platform) (hwnd retVal : Nat) :
    (UiaHostProviderFromHwnd plat hwnd retVal).1 =
      plat "UiaHostProviderFromHwnd" [hwnd, retVal] := by
  unfold UiaHostProviderFromHwnd
  by_cases h : plat "UiaHostProviderFromHwnd" [hwnd, retVal] = 0 <;> simp [h]

theorem UiaRaiseStructureChangedEvent_calls (ps : PtrSize) (plat : Platform)
    (pProvider kind pRuntimeId cRuntimeIdLen : Nat) :
    Event.calls (UiaRaiseStructureChangedEvent ps plat pProvider kind pRuntimeId cRuntimeIdLen).2 =
        [("UiaRaiseStructureChangedEvent",
          [pProvider, uintptrOfNat ps kind, pRuntimeId, cRuntimeIdLen])] ∧
      Event.stores
        (UiaRaiseStructureChangedEvent ps plat pProvider kind pRuntimeId cRuntimeIdLen).2 = [] := by
  unfold UiaRaiseStructureChangedEvent
  by_cases h : plat "UiaRaiseStructureChangedEvent"
    [pProvider, uintptrOfNat ps kind, pRuntimeId, cRuntimeIdLen] = S_OK <;>
    simp [h, Event.calls, Event.stores]

theorem UiaRaiseAutomationPropertyChangedEvent_calls (ps : PtrSize) (plat : Platform)
    (pProvider id oldV newV : Nat) :
    Event.calls (UiaRaiseAutomationPropertyChangedEvent ps plat pProvider id oldV newV).2 =
        [("UiaRaiseAutomationPropertyChangedEvent",
          [pProvider, uintptrOfNat ps id, oldV, newV])] ∧
      Event.stores (UiaRaiseAutomationPropertyChangedEvent ps plat pProvider id oldV newV).2 =
        [] := by
  unfold UiaRaiseAutomationPropertyChangedEvent
  by_cases h : plat "UiaRaiseAutomationPropertyChangedEvent"
    [pProvider, uintptrOfNat ps id, oldV, newV] = S_OK <;>
    simp [h, Event.calls, Event.stores]

theorem UiaRaiseAutomationEvent_calls (ps : PtrSize) (plat : Platform) (pProvider id : Nat) :
    Event.calls (UiaRaiseAutomationEvent ps plat pProvider id).2 =
        [("UiaRaiseAutomationEvent", [pProvider, uintptrOfNat ps id])] ∧
      Event.stores (UiaRaiseAutomationEvent ps plat pProvider id).2 = [] := by
  unfold UiaRaiseAutomationEvent
  by_cases h : plat "UiaRaiseAutomationEvent" [pProvider, uintptrOfNat ps id] = S_OK <;>
    simp [h, Event.calls, Event.stores]

theorem UiaRaiseNotificationEvent_calls (ps : PtrSize) (plat : Platform)
    (pProvider nKind processing displayString activityId : Nat) :
    Event.calls
        (UiaRaiseNotificationEvent ps plat pProvider nKind processing displayString activityId).2 =
        [("UiaRaiseNotificationEvent", [pProvider, uintptrOfNat ps nKind,
          uintptrOfNat ps processing, displayString, activityId])] ∧
      Event.stores
        (UiaRaiseNotificationEvent ps plat pProvider nKind processing displayString activityId).2 =
        [] := by
  unfold UiaRaiseNotificationEvent
  by_cases h : plat "UiaRaiseNotificationEvent" [pProvider, uintptrOfNat ps nKind,
    uintptrOfNat ps processing, displayString, activityId] = 0 <;>
    simp [h, Event.calls, Event.stores]

theorem GUID_eq_eq_beq (a b : GUID) : GUID.eq a b = (a == b) := by
  obtain ⟨a1, a2, a3, a4, a5, a6, a7, a8, a9, a10, a11⟩ := a
  obtain ⟨b1, b2, b3, b4, b5, b6, b7, b8, b9, b10, b11⟩ := b
  rw [Bool.eq_iff_iff]
  simp only [GUID.eq, Bool.and_eq_true, beq_iff_eq, GUID.mk.injEq]
  tauto

theorem int32OfInt_of_inRange (x : Int) (hlo : -(2 : Int) ^ 31 ≤ x) (hhi : x < (2 : Int) ^ 31) :
    int32OfInt x = x := by
  unfold int32OfInt
  norm_num at hlo hhi ⊢
  omega

theorem step_of_disconnected (q : ProviderObject) (h : q.state = .disconnected)
    (op : ProviderOp) : (q.step op).1 = q ∧ (q.step op).2 ≠ .undefined := by
  cases op <;>
    simp [ProviderObject.step, QueryInterface, AddRef, Release, CapabilityCall, h]

theorem run_of_disconnected (q : ProviderObject) (h : q.state = .disconnected)
    (ops : List ProviderOp) :
    (q.run ops).1 = q ∧ ∀ r ∈ (q.run ops).2, r ≠ .undefined := by
  induction ops with
  | nil => simp [ProviderObject.run]
  | cons op ops ih =>
    have hs := step_of_disconnected q h op
    simp only [ProviderObject.run, hs.1, List.mem_cons]
    refine ⟨ih.1, ?_⟩
    intro r hr
    rcases hr with rfl | hr
    · exact hs.2
    · exact ih.2 r hr

theorem Disconnect_of_live (p : ProviderObject) (h : p.state = .live) :
    (Disconnect p).state = .disconnected ∧ (Disconnect p).refCount = p.refCount := by
  simp [Disconnect, h]

theorem interfaces_composed (unknown simple fragment invoke : Nat)
    (hs : simple ≠ 0) (hf : fragment ≠ 0) (hi : invoke ≠ 0) :
    (ProviderObject.new unknown ⟨simple, fragment, 0, invoke, 0, 0⟩).interfaces =
      [(IID_IUnknown, unknown), (IID_IRawElementProviderSimple, simple),
        (IID_IRawElementProviderFragment, fragment), (IID_IInvokeProvider, invoke)] := by
  have hs' : (simple != 0) = true := by simpa using hs
  have hf' : (fragment != 0) = true := by simpa using hf
  have hi' : (invoke != 0) = true := by simpa using hi
  simp [ProviderObject.interfaces, ProviderObject.new, List.filter, hs', hf', hi']

theorem QueryInterface_of_live (p : ProviderObject) (iid : GUID) (h : p.state = .live) :
    (QueryInterface p iid).2 =
      match p.interfaces.find? (fun e => GUID.eq e.1 iid) with
      | some e => .table e.2
      | none => .notSupported := by
  unfold QueryInterface
  simp only [h]
  split <;> rfl

theorem find?_entry_skip (iid a : GUID) (addr : Nat) (l : List (GUID × Nat))
    (h : GUID.eq a iid = false) :
    List.find? (fun e : GUID × Nat => GUID.eq e.1 iid) ((a, addr) :: l) =
      List.find? (fun e : GUID × Nat => GUID.eq e.1 iid) l := by
  simp [List.find?, h]

theorem find?_entry_hit (iid a : GUID) (addr : Nat) (l : List (GUID × Nat))
    (h : GUID.eq a iid = true) :
    List.find? (fun e : GUID × Nat => GUID.eq e.1 iid) ((a, addr) :: l) = some (a, addr) := by
  simp [List.find?, h]

/-! ## Round trips of the typed setters through the decoder -/

/-- C1: for every bool b and every initial Variant, decoding after SetBool(b)
gives the boolean b (on both pointer widths, wherever the record lives). -/
theorem C1_SetBool_ToGoValue (ps : PtrSize) (self : Nat) (after : List Nat)
    (v : Variant) (b : Bool) :
    ToGoValue ps self after (SetBool ps v b) = some (.bool b) := by
  have h := allOnes_ne_zero ps
  cases b <;> simp [ToGoValue, SetBool, VT_BOOL, VT_I4, VT_BSTR, h]

/-- C2: for every int32 i (negative values, the minimum and the maximum
included) and every initial Variant, decoding after SetInt32(i) gives the
int32 i, the payload being a pointer-width unsigned word. -/
theorem C2_SetInt32_ToGoValue (ps : PtrSize) (self : Nat) (after : List Nat)
    (v : Variant) (i : Int) (hlo : -(2 : Int) ^ 31 ≤ i) (hhi : i < (2 : Int) ^ 31) :
    ToGoValue ps self after (SetInt32 ps v i) = some (.int32 i) := by
  simp [ToGoValue, SetInt32, VT_I4, int32OfWord_uintptrOfInt ps i hlo hhi]

/-- C2 at the minimum int32 on a 64-bit target. -/
theorem C2_SetInt32_ToGoValue_witness :
    (-(2 : Int) ^ 31 ≤ -2147483648 ∧ (-2147483648 : Int) < (2 : Int) ^ 31) ∧
    ToGoValue .p64 0x1000 [] (SetInt32 .p64 Variant.zero (-2147483648)) =
      some (.int32 (-2147483648)) :=
  ⟨⟨by decide, by decide⟩,
    C2_SetInt32_ToGoValue .p64 0x1000 [] Variant.zero (-2147483648) (by decide) (by decide)⟩

/-- C3: the string round trip fails. With the BSTR of "hello" allocated at
address 0x2a5f10, SetString returns normally and stores that address in Val, and
ToGoValue decodes the units of the field Val itself (0x5f10, 0x002a, then a NUL)
into a two-rune string, not "hello". -/
theorem C3_SetString_ToGoValue_reads_field :
    (SetString (fun _ => 0x2a5f10) Variant.zero "hello").2 = Exit.normal ∧
    (SetString (fun _ => 0x2a5f10) Variant.zero "hello").1.Val = 0x2a5f10 ∧
    ToGoValue .p64 0x1000 [] (SetString (fun _ => 0x2a5f10) Variant.zero "hello").1 =
      some (.string (String.mk [Char.ofNat 0x5f10, Char.ofNat 0x2a])) ∧
    ToGoValue .p64 0x1000 [] (SetString (fun _ => 0x2a5f10) Variant.zero "hello").1 ≠
      some (.string "hello") := by
  refine ⟨by decide, by decide, by decide, by decide⟩

/-! ## Encoding conventions -/

/-- C4: SetBool(true) stores the word with every bit set, 2^w - 1 for pointer
width w, SetBool(false) stores 0, and the stored payload is never 1. -/
theorem C4_SetBool_sentinel (ps : PtrSize) (v : Variant) :
    (SetBool ps v true).Val = 2 ^ ps.bits - 1 ∧ (SetBool ps v false).Val = 0 ∧
    ∀ b : Bool, (SetBool ps v b).Val ≠ 1 := by
  refine ⟨rfl, rfl, ?_⟩
  intro b
  have h := allOnes_ne_one ps
  cases b <;> simp [SetBool, h]

/-- C5: each typed setter writes the numeric tag of its kind: 11 after SetBool,
3 after SetInt32, 8 after SetString (however that call ends); the empty and
object-reference tags are 0 and 13. -/
theorem C5_setter_tags (ps : PtrSize) (sysAlloc : List Nat → Nat) (v : Variant)
    (b : Bool) (i : Int) (s : String) :
    (SetBool ps v b).VT = 11 ∧ (SetInt32 ps v i).VT = 3 ∧
    (SetString sysAlloc v s).1.VT = 8 ∧
    VT_BOOL = 11 ∧ VT_I4 = 3 ∧ VT_BSTR = 8 ∧ VT_EMPTY = 0 ∧ VT_UNKNOWN = 13 := by
  refine ⟨?_, rfl, SetString_VT sysAlloc v s, rfl, rfl, rfl, rfl, rfl⟩
  cases b <;> rfl

/-! ## Decoding of the other tags -/

/-- C6: a Variant whose tag is none of VT_I4, VT_BSTR, VT_BOOL, VT_UNKNOWN
decodes to nil, without failing, whatever its payload holds. -/
theorem C6_ToGoValue_default (ps : PtrSize) (self : Nat) (after : List Nat) (v : Variant)
    (h3 : v.VT ≠ VT_I4) (h8 : v.VT ≠ VT_BSTR) (h11 : v.VT ≠ VT_BOOL)
    (h13 : v.VT ≠ VT_UNKNOWN) :
    ToGoValue ps self after v = some .nil := by
  simp [ToGoValue, h3, h8, h11, h13]

/-- C6 at the zero-value Variant, whose tag is VT_EMPTY. -/
theorem C6_ToGoValue_default_witness :
    Variant.zero.VT = VT_EMPTY ∧ ToGoValue .p64 0x1000 [] Variant.zero = some .nil :=
  ⟨rfl, C6_ToGoValue_default .p64 0x1000 [] Variant.zero
    (by decide) (by decide) (by decide) (by decide)⟩

/-! ## Allocation failure in `SetString` -/

/-- C7, the claim as written fails: when the platform allocator answers 0 for
"hello", SysAllocString returns an error, and SetString leaves by a panic after
it has already overwritten the tag of the zero-value Variant with VT_BSTR. -/
theorem C7_SetString_failure_panics_counterexample :
    (SysAllocString (fun _ => 0) "hello").2 ≠ none ∧
    ¬ ((SetString (fun _ => 0) Variant.zero "hello").2 = Exit.normal ∧
       (SetString (fun _ => 0) Variant.zero "hello").1.VT = Variant.zero.VT ∧
       (SetString (fun _ => 0) Variant.zero "hello").1.Val = Variant.zero.Val) ∧
    (SetString (fun _ => 0) Variant.zero "hello").2 = Exit.panic "allocating string failed" ∧
    (SetString (fun _ => 0) Variant.zero "hello").1.VT = VT_BSTR ∧
    Variant.zero.VT = VT_EMPTY := by
  refine ⟨by decide, by decide, by decide, by decide, by decide⟩

/-- C7 as amended: when string allocation fails (SysAllocString returns an
error), SetString does not return: it panics with "allocating string failed",
and at that point the payload Val, the reserved fields and the blank field hold
their prior values. -/
theorem C7_SetString_failure_panics (sysAlloc : List Nat → Nat) (v : Variant) (s : String)
    (hfail : (SysAllocString sysAlloc s).2 ≠ none) :
    (SetString sysAlloc v s).2 = Exit.panic "allocating string failed" ∧
    (SetString sysAlloc v s).1.Val = v.Val ∧
    (SetString sysAlloc v s).1.Reserved1 = v.Reserved1 ∧
    (SetString sysAlloc v s).1.Reserved2 = v.Reserved2 ∧
    (SetString sysAlloc v s).1.Reserved3 = v.Reserved3 ∧
    (SetString sysAlloc v s).1.pad = v.pad := by
  unfold SetString
  split
  · exact ⟨rfl, rfl, rfl, rfl, rfl, rfl⟩
  · rename_i bstr heq
    rw [heq] at hfail
    exact absurd rfl hfail

/-- C7 as amended, on a string that holds a NUL (the conversion to UTF-16 is
what fails) and on a Variant that held an int32. -/
theorem C7_SetString_failure_panics_witness :
    (SysAllocString (fun _ => 0x2a5f10) "a\x00b").2 ≠ none ∧
    (SetString (fun _ => 0x2a5f10) (SetInt32 .p64 Variant.zero 7) "a\x00b").2 =
      Exit.panic "allocating string failed" ∧
    (SetString (fun _ => 0x2a5f10) (SetInt32 .p64 Variant.zero 7) "a\x00b").1.Val = 7 :=
  ⟨by decide,
    (C7_SetString_failure_panics (fun _ => 0x2a5f10) (SetInt32 .p64 Variant.zero 7) "a\x00b"
      (by decide)).1,
    (C7_SetString_failure_panics (fun _ => 0x2a5f10) (SetInt32 .p64 Variant.zero 7) "a\x00b"
      (by decide)).2.1⟩

/-! ## Object references and release -/

/-- C8: for a Variant with tag VT_UNKNOWN the decoder returns the address of the
field Val of the record it was called on (its own address plus 8), whatever the
payload holds; with the record at 0x1000 and the object reference 0x2a5f10 in
Val, the result is the pointer 0x1008, not 0x2a5f10. -/
theorem C8_ToGoValue_unknown_field_address :
    (∀ (ps : PtrSize) (self : Nat) (after : List Nat) (v : Variant),
      ToGoValue ps self after { v with VT := VT_UNKNOWN } = some (.unsafePointer (self + 8))) ∧
    ToGoValue .p64 0x1000 [] { Variant.zero with VT := VT_UNKNOWN, Val := 0x2a5f10 } =
      some (.unsafePointer 0x1008) ∧
    ToGoValue .p64 0x1000 [] { Variant.zero with VT := VT_UNKNOWN, Val := 0x2a5f10 } ≠
      some (.unsafePointer 0x2a5f10) := by
  refine ⟨?_, by decide, by decide⟩
  intro ps self after v
  simp [ToGoValue, VT_UNKNOWN, VT_I4, VT_BSTR, VT_BOOL, Variant.offsetVal]

/-- C9: take a Variant produced by a successful SetString and clear it once with
success, the platform's VariantClear resetting the tag to VT_EMPTY whenever it
succeeds; then the decoder returns nil. -/
theorem C9_clear_then_decode_nil (ps : PtrSize) (self : Nat) (after : List Nat)
    (sysAlloc : List Nat → Nat) (clear : Variant → Nat × Variant) (v : Variant) (s : String)
    (_hset : (SetString sysAlloc v s).2 = Exit.normal)
    (hplat : ∀ x : Variant, (clear x).1 = 0 → (clear x).2.VT = VT_EMPTY)
    (hclear : (VariantClear clear (SetString sysAlloc v s).1).2 = none) :
    ToGoValue ps self after (VariantClear clear (SetString sysAlloc v s).1).1 = some .nil := by
  have hr : (clear (SetString sysAlloc v s).1).1 = 0 := by
    by_contra hne
    simp [VariantClear, hne] at hclear
  have hvt := hplat _ hr
  have hst : (VariantClear clear (SetString sysAlloc v s).1).1 =
      (clear (SetString sysAlloc v s).1).2 := by
    simp [VariantClear, hr]
  rw [hst]
  simp [ToGoValue, hvt, VT_EMPTY, VT_I4, VT_BSTR, VT_BOOL, VT_UNKNOWN]

/-- C9 on "hello", with a platform that allocates at 0x2a5f10 and whose
VariantClear zeroes the tag and the payload and answers S_OK. -/
theorem C9_clear_then_decode_nil_witness :
    (SetString (fun _ => 0x2a5f10) Variant.zero "hello").2 = Exit.normal ∧
    (VariantClear (fun x => (0, { x with VT := VT_EMPTY, Val := 0 }))
      (SetString (fun _ => 0x2a5f10) Variant.zero "hello").1).2 = none ∧
    ToGoValue .p64 0x1000 []
      (VariantClear (fun x => (0, { x with VT := VT_EMPTY, Val := 0 }))
        (SetString (fun _ => 0x2a5f10) Variant.zero "hello").1).1 = some .nil :=
  ⟨by decide, by decide,
    C9_clear_then_decode_nil .p64 0x1000 [] (fun _ => 0x2a5f10)
      (fun x => (0, { x with VT := VT_EMPTY, Val := 0 })) Variant.zero "hello"
      (by decide) (fun _ _ => rfl) (by decide)⟩

/-! ## Array factories -/

/-- C10: whatever word and last-error value the platform factory answers, a
non-null array address included, SafeArrayCreate and SafeArrayCreateVector
return the nil array together with an error, because a boxed uintptr never has
the dynamic type of an array pointer. -/
theorem C10_SafeArrayCreate_always_errors (ps : PtrSize)
    (call : Nat → Nat → Nat → Nat × String) (vt cDims rgsabound : Nat)
    (lLbound : Int) (cElements : Nat) :
    SafeArrayCreate ps call vt cDims rgsabound =
      (0, some ("SafeArrayCreate failed: " ++
        (call (uintptrOfNat ps vt) (uintptrOfNat ps cDims) rgsabound).2)) ∧
    SafeArrayCreateVector ps call vt lLbound cElements =
      (0, some ("SafeArrayCreateVector failed: " ++
        (call (uintptrOfNat ps vt) (uintptrOfInt ps lLbound) (uintptrOfNat ps cElements)).2)) := by
  constructor <;> rfl

/-! ## Array element store -/

/-- C11: SafeArrayPutElement returns an error exactly when the platform put
answers a status other than S_OK (0), and nil exactly when it answers S_OK; so
with a platform that rejects index 3 of a three-element array (DISP_E_BADINDEX)
the put at index 3 is an error and the put at index 2 is nil. -/
theorem C11_SafeArrayPutElement_error_iff (put : Nat → Nat → Nat → Nat) (sa rgIndices pv : Nat) :
    (SafeArrayPutElement put sa rgIndices pv ≠ none ↔ put sa rgIndices pv ≠ S_OK) ∧
    (SafeArrayPutElement put sa rgIndices pv = none ↔ put sa rgIndices pv = S_OK) ∧
    S_OK = 0 ∧
    SafeArrayPutElement (fun _ i _ => if i < 3 then S_OK else 0x8002000B) 0x2a5f10 3 0x1000 =
      some "SafeArrayPutElement failed: 0x8002000b" ∧
    SafeArrayPutElement (fun _ i _ => if i < 3 then S_OK else 0x8002000B) 0x2a5f10 2 0x1000 =
      none := by
  refine ⟨?_, ?_, rfl, by decide, by decide⟩
  · unfold SafeArrayPutElement
    by_cases h : put sa rgIndices pv = S_OK <;> simp [h]
  · unfold SafeArrayPutElement
    by_cases h : put sa rgIndices pv = S_OK <;> simp [h]

/-! ## Interface tables -/

/-- C12: in each of the nine interface table types the first three pointer-sized
slots are QueryInterface, AddRef, Release, at offsets 0, one and two pointer
sizes, and every further slot lies after them and is none of the three. -/
theorem C12_vtable_lifetime_slots (ps : PtrSize) :
    allVTables.length = 9 ∧
    ∀ t ∈ allVTables,
      (slots ps t).take 3 =
        [("QueryInterface", 0), ("AddRef", ps.bytes), ("Release", 2 * ps.bytes)] ∧
      ∀ s ∈ (slots ps t).drop 3,
        3 * ps.bytes ≤ s.2 ∧ s.1 ∉ ["QueryInterface", "AddRef", "Release"] := by
  cases ps <;> decide

/-- C13: the interface-specific slots of the six provider tables are, in order,
the methods of the platform's interface definitions (each spelled as an exported
Go field), and slot k of each table lies at k times the pointer size. -/
theorem C13_provider_slot_order (ps : PtrSize) :
    ((slots ps IRawElementProviderSimpleVTable).drop 3).map Prod.fst =
      ["get_ProviderOptions", "GetPatternProvider", "GetPropertyValue",
        "get_HostRawElementProvider"].map exportedName ∧
    ((slots ps IRawElementProviderFragmentVTable).drop 3).map Prod.fst =
      ["Navigate", "GetRuntimeId", "get_BoundingRectangle", "GetEmbeddedFragmentRoots",
        "SetFocus", "get_FragmentRoot"].map exportedName ∧
    ((slots ps IRawElementProviderFragmentRootVTable).drop 3).map Prod.fst =
      ["ElementProviderFromPoint", "GetFocus"].map exportedName ∧
    ((slots ps IInvokeProviderVTable).drop 3).map Prod.fst = ["Invoke"].map exportedName ∧
    ((slots ps IValueProviderVTable).drop 3).map Prod.fst =
      ["SetValue", "get_Value", "get_IsReadOnly"].map exportedName ∧
    ((slots ps IScrollProviderVTable).drop 3).map Prod.fst =
      ["Scroll", "SetScrollPercent", "get_HorizontalScrollPercent",
        "get_VerticalScrollPercent", "get_HorizontalViewSize", "get_VerticalViewSize",
        "get_HorizontallyScrollable", "get_VerticallyScrollable"].map exportedName ∧
    ∀ t ∈ [IRawElementProviderSimpleVTable, IRawElementProviderFragmentVTable,
        IRawElementProviderFragmentRootVTable, IInvokeProviderVTable, IValueProviderVTable,
        IScrollProviderVTable],
      (slots ps t).map Prod.snd = (List.range (slots ps t).length).map (fun k => k * ps.bytes) := by
  cases ps <;> decide

/-- C14: the table IUIAutomationTogglePatternVTable holds Get_CachedToggleState
at slot 3, Get_CurrentToggleState at slot 4 and Toggle at slot 5, which is the
reverse of the published order Toggle, get_CurrentToggleState,
get_CachedToggleState. -/
theorem C14_toggle_pattern_slot_order (ps : PtrSize) :
    (slots ps IUIAutomationTogglePatternVTable).map Prod.fst =
      ["QueryInterface", "AddRef", "Release",
        "Get_CachedToggleState", "Get_CurrentToggleState", "Toggle"] ∧
    ((slots ps IUIAutomationTogglePatternVTable).drop 3).map Prod.fst ≠
      ["Toggle", "get_CurrentToggleState", "get_CachedToggleState"].map exportedName ∧
    ((slots ps IUIAutomationTogglePatternVTable).drop 3).map Prod.fst =
      (["Toggle", "get_CurrentToggleState", "get_CachedToggleState"].map exportedName).reverse := by
  cases ps <;> decide

/-! ## Interface identities -/

/-- C15: a GUID occupies 16 bytes on either target, its fields of 4, 2, 2 and
eight times 1 bytes lying back to back without padding, and two GUIDs whose
fields hold values of their types are equal under == exactly when their 16-byte
encodings are equal. -/
theorem C15_GUID_eq_iff_bytes (a b : GUID) (ha : a.inRange) (hb : b.inRange) :
    (∀ ps : PtrSize, structSize ps GUID.decl = 16 ∧
      (GUID.decl.map (fun f => f.type.size ps)).sum = 16 ∧
      (layout ps GUID.decl).map Prod.snd = [0, 0, 4, 6, 8, 9, 10, 11, 12, 13, 14, 15]) ∧
    a.bytes.length = 16 ∧ b.bytes.length = 16 ∧
    (GUID.eq a b = true ↔ a.bytes = b.bytes) := by
  refine ⟨fun ps => by cases ps <;> decide, by simp [GUID.bytes, leBytes],
    by simp [GUID.bytes, leBytes], ?_⟩
  obtain ⟨a1, a2, a3, a4, a5, a6, a7, a8, a9, a10, a11⟩ := a
  obtain ⟨b1, b2, b3, b4, b5, b6, b7, b8, b9, b10, b11⟩ := b
  simp only [GUID.inRange] at ha hb
  simp only [GUID.eq, GUID.bytes, leBytes, Bool.and_eq_true, beq_iff_eq, List.cons_append,
    List.nil_append, List.cons.injEq, and_true]
  constructor
  · rintro ⟨⟨⟨⟨⟨⟨⟨⟨⟨⟨h1, h2⟩, h3⟩, h4⟩, h5⟩, h6⟩, h7⟩, h8⟩, h9⟩, h10⟩, h11⟩
    subst h1 h2 h3 h4 h5 h6 h7 h8 h9 h10 h11
    simp
  · intro h
    refine ⟨⟨⟨⟨⟨⟨⟨⟨⟨⟨?_, ?_⟩, ?_⟩, ?_⟩, ?_⟩, ?_⟩, ?_⟩, ?_⟩, ?_⟩, ?_⟩, ?_⟩ <;> omega

/-- C15 on two declared identities that differ. -/
theorem C15_GUID_eq_iff_bytes_witness :
    IID_IUnknown.inRange ∧ IID_IValueProvider.inRange ∧
    IID_IUnknown.bytes.length = 16 ∧
    (GUID.eq IID_IUnknown IID_IValueProvider = true ↔
      IID_IUnknown.bytes = IID_IValueProvider.bytes) :=
  ⟨by decide, by decide,
    (C15_GUID_eq_iff_bytes IID_IUnknown IID_IValueProvider (by decide) (by decide)).2.1,
    (C15_GUID_eq_iff_bytes IID_IUnknown IID_IValueProvider (by decide) (by decide)).2.2.2⟩

/-! ## Status words and errors of the event wrappers -/

/-- C16, the claim as written fails: when the platform answers
UIA_E_ELEMENTNOTAVAILABLE (0x80040201) to UiaRaiseAutomationEvent, the wrapper
returns that word, which is none of the eleven declared status codes. -/
theorem C16_status_passthrough_counterexample :
    (UiaRaiseAutomationEvent .p64 (fun _ _ => 0x80040201) 0x2a5f10 20035).1 = 0x80040201 ∧
    (UiaRaiseAutomationEvent .p64 (fun _ _ => 0x80040201) 0x2a5f10 20035).1 ∉ declaredStatus := by
  refine ⟨by decide, by decide⟩

/-- C16 as amended: each status-returning wrapper returns the status word of its
platform call unchanged (S_OK when the platform answers S_OK), so what it
returns is one of the eleven declared codes exactly when the platform's status
is one of them. -/
theorem C16_status_passthrough (ps : PtrSize) (plat : Platform)
    (pProvider id oldV newV kind pRuntimeId cRuntimeIdLen hwnd retVal : Nat) :
    (UiaRaiseAutomationEvent ps plat pProvider id).1 =
      plat "UiaRaiseAutomationEvent" [pProvider, uintptrOfNat ps id] ∧
    (UiaRaiseAutomationPropertyChangedEvent ps plat pProvider id oldV newV).1 =
      plat "UiaRaiseAutomationPropertyChangedEvent" [pProvider, uintptrOfNat ps id, oldV, newV] ∧
    (UiaRaiseStructureChangedEvent ps plat pProvider kind pRuntimeId cRuntimeIdLen).1 =
      plat "UiaRaiseStructureChangedEvent"
        [pProvider, uintptrOfNat ps kind, pRuntimeId, cRuntimeIdLen] ∧
    (UiaHostProviderFromHwnd plat hwnd retVal).1 =
      plat "UiaHostProviderFromHwnd" [hwnd, retVal] ∧
    ((UiaRaiseAutomationEvent ps plat pProvider id).1 ∈ declaredStatus ↔
      plat "UiaRaiseAutomationEvent" [pProvider, uintptrOfNat ps id] ∈ declaredStatus) ∧
    ((UiaRaiseAutomationPropertyChangedEvent ps plat pProvider id oldV newV).1 ∈ declaredStatus ↔
      plat "UiaRaiseAutomationPropertyChangedEvent" [pProvider, uintptrOfNat ps id, oldV, newV] ∈
        declaredStatus) ∧
    ((UiaRaiseStructureChangedEvent ps plat pProvider kind pRuntimeId cRuntimeIdLen).1 ∈
        declaredStatus ↔
      plat "UiaRaiseStructureChangedEvent"
        [pProvider, uintptrOfNat ps kind, pRuntimeId, cRuntimeIdLen] ∈ declaredStatus) ∧
    ((UiaHostProviderFromHwnd plat hwnd retVal).1 ∈ declaredStatus ↔
      plat "UiaHostProviderFromHwnd" [hwnd, retVal] ∈ declaredStatus) := by
  have h1 := UiaRaiseAutomationEvent_fst ps plat pProvider id
  have h2 := UiaRaiseAutomationPropertyChangedEvent_fst ps plat pProvider id oldV newV
  have h3 := UiaRaiseStructureChangedEvent_fst ps plat pProvider kind pRuntimeId cRuntimeIdLen
  have h4 := UiaHostProviderFromHwnd_fst plat hwnd retVal
  refine ⟨h1, h2, h3, h4, ?_, ?_, ?_, ?_⟩
  · rw [h1]
  · rw [h2]
  · rw [h3]
  · rw [h4]

/-- C17: UiaRaiseNotificationEvent and UiaRaiseChangesEvent each return a non-nil
error exactly when the platform call answers a non-zero status and nil exactly
when it answers 0; both return for every status. -/
theorem C17_notification_error_iff (ps : PtrSize) (plat : Platform)
    (pProvider kind processing displayString activityId : Nat)
    (eventIdCount : Int) (pUiaChanges : Nat) :
    ((UiaRaiseNotificationEvent ps plat pProvider kind processing displayString activityId).1 ≠
        none ↔
      plat "UiaRaiseNotificationEvent" [pProvider, uintptrOfNat ps kind,
        uintptrOfNat ps processing, displayString, activityId] ≠ 0) ∧
    ((UiaRaiseNotificationEvent ps plat pProvider kind processing displayString activityId).1 =
        none ↔
      plat "UiaRaiseNotificationEvent" [pProvider, uintptrOfNat ps kind,
        uintptrOfNat ps processing, displayString, activityId] = 0) ∧
    ((UiaRaiseChangesEvent ps plat pProvider eventIdCount pUiaChanges).1 ≠ none ↔
      plat "UiaRaiseChangesEvent" [pProvider, uintptrOfInt ps eventIdCount, pUiaChanges] ≠ 0) ∧
    ((UiaRaiseChangesEvent ps plat pProvider eventIdCount pUiaChanges).1 = none ↔
      plat "UiaRaiseChangesEvent" [pProvider, uintptrOfInt ps eventIdCount, pUiaChanges] = 0) := by
  refine ⟨?_, ?_, ?_, ?_⟩
  · unfold UiaRaiseNotificationEvent
    by_cases h : plat "UiaRaiseNotificationEvent" [pProvider, uintptrOfNat ps kind,
      uintptrOfNat ps processing, displayString, activityId] = 0 <;> simp [h]
  · unfold UiaRaiseNotificationEvent
    by_cases h : plat "UiaRaiseNotificationEvent" [pProvider, uintptrOfNat ps kind,
      uintptrOfNat ps processing, displayString, activityId] = 0 <;> simp [h]
  · unfold UiaRaiseChangesEvent
    by_cases h : plat "UiaRaiseChangesEvent"
      [pProvider, uintptrOfInt ps eventIdCount, pUiaChanges] = 0 <;> simp [h]
  · unfold UiaRaiseChangesEvent
    by_cases h : plat "UiaRaiseChangesEvent"
      [pProvider, uintptrOfInt ps eventIdCount, pUiaChanges] = 0 <;> simp [h]

/-- C18: with an empty runtime id (nil pointer, length 0), for every provider
and change kind, UiaRaiseStructureChangedEvent returns a status: the platform's
status unchanged, hence S_OK exactly when the platform answers S_OK. -/
theorem C18_structure_changed_empty_runtime_id (ps : PtrSize) (plat : Platform)
    (pProvider kind : Nat) :
    (UiaRaiseStructureChangedEvent ps plat pProvider kind 0 0).1 =
      plat "UiaRaiseStructureChangedEvent" [pProvider, uintptrOfNat ps kind, 0, 0] ∧
    ((UiaRaiseStructureChangedEvent ps plat pProvider kind 0 0).1 = S_OK ↔
      plat "UiaRaiseStructureChangedEvent" [pProvider, uintptrOfNat ps kind, 0, 0] = S_OK) := by
  have h := UiaRaiseStructureChangedEvent_fst ps plat pProvider kind 0 0
  exact ⟨h, by rw [h]⟩

/-- C19: each of the four emitters performs exactly one platform call, the
matching raise entry point with the words it was given, whether the platform
answers success or failure; it stores through no pointer, and it calls neither
VariantClear nor UiaDisconnectProvider. -/
theorem C19_emitters_single_call (ps : PtrSize) (plat : Platform)
    (pProvider id oldV newV kind pRuntimeId cRuntimeIdLen : Nat)
    (nKind processing displayString activityId : Nat) :
    (Event.calls (UiaRaiseStructureChangedEvent ps plat pProvider kind pRuntimeId cRuntimeIdLen).2 =
        [("UiaRaiseStructureChangedEvent",
          [pProvider, uintptrOfNat ps kind, pRuntimeId, cRuntimeIdLen])] ∧
      Event.stores
        (UiaRaiseStructureChangedEvent ps plat pProvider kind pRuntimeId cRuntimeIdLen).2 = []) ∧
    (Event.calls (UiaRaiseAutomationPropertyChangedEvent ps plat pProvider id oldV newV).2 =
        [("UiaRaiseAutomationPropertyChangedEvent",
          [pProvider, uintptrOfNat ps id, oldV, newV])] ∧
      Event.stores (UiaRaiseAutomationPropertyChangedEvent ps plat pProvider id oldV newV).2 =
        []) ∧
    (Event.calls (UiaRaiseAutomationEvent ps plat pProvider id).2 =
        [("UiaRaiseAutomationEvent", [pProvider, uintptrOfNat ps id])] ∧
      Event.stores (UiaRaiseAutomationEvent ps plat pProvider id).2 = []) ∧
    (Event.calls
        (UiaRaiseNotificationEvent ps plat pProvider nKind processing displayString activityId).2 =
        [("UiaRaiseNotificationEvent", [pProvider, uintptrOfNat ps nKind,
          uintptrOfNat ps processing, displayString, activityId])] ∧
      Event.stores
        (UiaRaiseNotificationEvent ps plat pProvider nKind processing displayString activityId).2 =
        []) ∧
    ∀ c ∈ Event.calls
          (UiaRaiseStructureChangedEvent ps plat pProvider kind pRuntimeId cRuntimeIdLen).2 ++
        Event.calls (UiaRaiseAutomationPropertyChangedEvent ps plat pProvider id oldV newV).2 ++
        Event.calls (UiaRaiseAutomationEvent ps plat pProvider id).2 ++
        Event.calls
          (UiaRaiseNotificationEvent ps plat pProvider nKind processing displayString activityId).2,
      c.1 ≠ "VariantClear" ∧ c.1 ≠ "UiaDisconnectProvider" := by
  have h1 := UiaRaiseStructureChangedEvent_calls ps plat pProvider kind pRuntimeId cRuntimeIdLen
  have h2 := UiaRaiseAutomationPropertyChangedEvent_calls ps plat pProvider id oldV newV
  have h3 := UiaRaiseAutomationEvent_calls ps plat pProvider id
  have h4 := UiaRaiseNotificationEvent_calls ps plat pProvider nKind processing displayString
    activityId
  refine ⟨h1, h2, h3, h4, ?_⟩
  intro c hc
  rw [h1.1, h2.1, h3.1, h4.1] at hc
  simp only [List.cons_append, List.nil_append, List.mem_cons, List.mem_singleton,
    List.not_mem_nil, or_false] at hc
  rcases hc with rfl | rfl | rfl | rfl <;> exact ⟨by simp, by simp⟩

/-! ## Event enumerations -/

/-- C20: the event enumerations carry the platform's values in the listed order:
StructureChangeType 0 to 5, NotificationKind 0 to 4, NotificationProcessing 0 to
4, the values within each enumeration being pairwise distinct. -/
theorem C20_event_enumerations :
    [StructureChangeType_ChildAdded, StructureChangeType_ChildRemoved,
      StructureChangeType_ChildrenInvalidated, StructureChangeType_ChildrenBulkAdded,
      StructureChangeType_ChildrenBulkRemoved, StructureChangeType_ChildrenReordered] =
      [0, 1, 2, 3, 4, 5] ∧
    [NotificationKind_ItemAdded, NotificationKind_ItemRemoved, NotificationKind_ActionCompleted,
      NotificationKind_ActionAborted, NotificationKind_Other] = [0, 1, 2, 3, 4] ∧
    [NotificationProcessing_ImportantAll, NotificationProcessing_ImportantMostRecent,
      NotificationProcessing_All, NotificationProcessing_MostRecent,
      NotificationProcessing_CurrentThenMostRecent] = [0, 1, 2, 3, 4] ∧
    [StructureChangeType_ChildAdded, StructureChangeType_ChildRemoved,
      StructureChangeType_ChildrenInvalidated, StructureChangeType_ChildrenBulkAdded,
      StructureChangeType_ChildrenBulkRemoved, StructureChangeType_ChildrenReordered].Nodup ∧
    [NotificationKind_ItemAdded, NotificationKind_ItemRemoved, NotificationKind_ActionCompleted,
      NotificationKind_ActionAborted, NotificationKind_Other].Nodup ∧
    [NotificationProcessing_ImportantAll, NotificationProcessing_ImportantMostRecent,
      NotificationProcessing_All, NotificationProcessing_MostRecent,
      NotificationProcessing_CurrentThenMostRecent].Nodup := by
  decide

/-! ## Interface negotiation and lifetime of the provider -/

/-- C21: for a provider composed of the Simple, Fragment and Invoke tables (held
at pairwise distinct addresses, distinct from its IUnknown table), QueryInterface
with IID_IUnknown, IID_IRawElementProviderSimple, IID_IRawElementProviderFragment
and IID_IInvokeProvider succeeds with the address of the matching table, the four
addresses being pairwise distinct, and QueryInterface with IID_IValueProvider
returns NotSupported, the status E_NOINTERFACE. -/
theorem C21_QueryInterface_composed (unknown simple fragment invoke : Nat)
    (hs : simple ≠ 0) (hf : fragment ≠ 0) (hi : invoke ≠ 0)
    (hd : [unknown, simple, fragment, invoke].Nodup) :
    (QueryInterface (ProviderObject.new unknown ⟨simple, fragment, 0, invoke, 0, 0⟩)
      IID_IUnknown).2 = .table unknown ∧
    (QueryInterface (ProviderObject.new unknown ⟨simple, fragment, 0, invoke, 0, 0⟩)
      IID_IRawElementProviderSimple).2 = .table simple ∧
    (QueryInterface (ProviderObject.new unknown ⟨simple, fragment, 0, invoke, 0, 0⟩)
      IID_IRawElementProviderFragment).2 = .table fragment ∧
    (QueryInterface (ProviderObject.new unknown ⟨simple, fragment, 0, invoke, 0, 0⟩)
      IID_IInvokeProvider).2 = .table invoke ∧
    [(QueryInterface (ProviderObject.new unknown ⟨simple, fragment, 0, invoke, 0, 0⟩)
        IID_IUnknown).2,
      (QueryInterface (ProviderObject.new unknown ⟨simple, fragment, 0, invoke, 0, 0⟩)
        IID_IRawElementProviderSimple).2,
      (QueryInterface (ProviderObject.new unknown ⟨simple, fragment, 0, invoke, 0, 0⟩)
        IID_IRawElementProviderFragment).2,
      (QueryInterface (ProviderObject.new unknown ⟨simple, fragment, 0, invoke, 0, 0⟩)
        IID_IInvokeProvider).2].Nodup ∧
    (QueryInterface (ProviderObject.new unknown ⟨simple, fragment, 0, invoke, 0, 0⟩)
      IID_IValueProvider).2 = .notSupported ∧
    (QueryInterface (ProviderObject.new unknown ⟨simple, fragment, 0, invoke, 0, 0⟩)
      IID_IValueProvider).2.status = some E_NOINTERFACE := by
  have hl := interfaces_composed unknown simple fragment invoke hs hf hi
  have e00 : GUID.eq IID_IUnknown IID_IUnknown = true := by decide
  have e01 : GUID.eq IID_IUnknown IID_IRawElementProviderSimple = false := by decide
  have e02 : GUID.eq IID_IUnknown IID_IRawElementProviderFragment = false := by decide
  have e03 : GUID.eq IID_IUnknown IID_IInvokeProvider = false := by decide
  have e04 : GUID.eq IID_IUnknown IID_IValueProvider = false := by decide
  have e11 : GUID.eq IID_IRawElementProviderSimple IID_IRawElementProviderSimple = true := by
    decide
  have e12 : GUID.eq IID_IRawElementProviderSimple IID_IRawElementProviderFragment = false := by
    decide
  have e13 : GUID.eq IID_IRawElementProviderSimple IID_IInvokeProvider = false := by decide
  have e14 : GUID.eq IID_IRawElementProviderSimple IID_IValueProvider = false := by decide
  have e22 : GUID.eq IID_IRawElementProviderFragment IID_IRawElementProviderFragment = true := by
    decide
  have e23 : GUID.eq IID_IRawElementProviderFragment IID_IInvokeProvider = false := by decide
  have e24 : GUID.eq IID_IRawElementProviderFragment IID_IValueProvider = false := by decide
  have e33 : GUID.eq IID_IInvokeProvider IID_IInvokeProvider = true := by decide
  have e34 : GUID.eq IID_IInvokeProvider IID_IValueProvider = false := by decide
  have h1 : (QueryInterface (ProviderObject.new unknown ⟨simple, fragment, 0, invoke, 0, 0⟩)
      IID_IUnknown).2 = .table unknown := by
    rw [QueryInterface_of_live _ _ rfl, hl, find?_entry_hit _ _ _ _ e00]
  have h2 : (QueryInterface (ProviderObject.new unknown ⟨simple, fragment, 0, invoke, 0, 0⟩)
      IID_IRawElementProviderSimple).2 = .table simple := by
    rw [QueryInterface_of_live _ _ rfl, hl, find?_entry_skip _ _ _ _ e01,
      find?_entry_hit _ _ _ _ e11]
  have h3 : (QueryInterface (ProviderObject.new unknown ⟨simple, fragment, 0, invoke, 0, 0⟩)
      IID_IRawElementProviderFragment).2 = .table fragment := by
    rw [QueryInterface_of_live _ _ rfl, hl, find?_entry_skip _ _ _ _ e02,
      find?_entry_skip _ _ _ _ e12, find?_entry_hit _ _ _ _ e22]
  have h4 : (QueryInterface (ProviderObject.new unknown ⟨simple, fragment, 0, invoke, 0, 0⟩)
      IID_IInvokeProvider).2 = .table invoke := by
    rw [QueryInterface_of_live _ _ rfl, hl, find?_entry_skip _ _ _ _ e03,
      find?_entry_skip _ _ _ _ e13, find?_entry_skip _ _ _ _ e23, find?_entry_hit _ _ _ _ e33]
  have h5 : (QueryInterface (ProviderObject.new unknown ⟨simple, fragment, 0, invoke, 0, 0⟩)
      IID_IValueProvider).2 = .notSupported := by
    rw [QueryInterface_of_live _ _ rfl, hl, find?_entry_skip _ _ _ _ e04,
      find?_entry_skip _ _ _ _ e14, find?_entry_skip _ _ _ _ e24, find?_entry_skip _ _ _ _ e34]
    rfl
  refine ⟨h1, h2, h3, h4, ?_, h5, ?_⟩
  · rw [h1, h2, h3, h4]
    simp only [List.nodup_cons, List.mem_cons, List.mem_singleton, List.not_mem_nil,
      List.nodup_nil, CallResult.table.injEq] at hd ⊢
    exact hd
  · rw [h5]
    rfl

/-- C21 on a provider with its tables at 0x1000, 0x2000, 0x3000 and 0x4000. -/
theorem C21_QueryInterface_composed_witness :
    (QueryInterface (ProviderObject.new 0x1000 ⟨0x2000, 0x3000, 0, 0x4000, 0, 0⟩)
      IID_IInvokeProvider).2 = .table 0x4000 ∧
    (QueryInterface (ProviderObject.new 0x1000 ⟨0x2000, 0x3000, 0, 0x4000, 0, 0⟩)
      IID_IValueProvider).2 = .notSupported :=
  ⟨(C21_QueryInterface_composed 0x1000 0x2000 0x3000 0x4000 (by decide) (by decide) (by decide)
      (by decide)).2.2.2.1,
    (C21_QueryInterface_composed 0x1000 0x2000 0x3000 0x4000 (by decide) (by decide) (by decide)
      (by decide)).2.2.2.2.2.1⟩

/-- C22: a provider's reference count starts at 1; on a live provider a
successful QueryInterface increments it by one and a failed one leaves the
object as it was; Release decrements it by one, and the object is freed exactly
when the count has reached 0. Three successful QueryInterface calls on a new
provider raise the count to 4; it is still live after three Release calls, and
the fourth brings the count to 0 and frees it. -/
theorem C22_reference_count (p : ProviderObject) (hlive : p.state = .live)
    (hpos : 1 ≤ p.refCount) (iid : GUID) (unknown : Nat) (tables : SemanticVTable) :
    ((ProviderObject.new unknown tables).refCount = 1 ∧
      (ProviderObject.new unknown tables).state = .live) ∧
    (∀ a, (QueryInterface p iid).2 = .table a →
      (QueryInterface p iid).1.refCount = p.refCount + 1 ∧
      (QueryInterface p iid).1.state = .live) ∧
    ((QueryInterface p iid).2 = .notSupported → (QueryInterface p iid).1 = p) ∧
    ((QueryInterface p iid).2 = .notSupported ∨ ∃ a, (QueryInterface p iid).2 = .table a) ∧
    ((Release p).1.refCount + 1 = p.refCount ∧ (Release p).2 = .count (p.refCount - 1)) ∧
    ((Release p).1.state = .freed ↔ (Release p).1.refCount = 0) ∧
    ((Release p).1.state = .live ↔ (Release p).1.refCount ≠ 0) ∧
    ((ProviderObject.new unknown tables).run
      [.queryInterface IID_IUnknown, .queryInterface IID_IUnknown,
        .queryInterface IID_IUnknown]).1.refCount = 4 ∧
    ((ProviderObject.new unknown tables).run
      [.queryInterface IID_IUnknown, .queryInterface IID_IUnknown,
        .queryInterface IID_IUnknown, .release, .release, .release]).1 =
      { unknown := unknown, tables := tables, refCount := 1, state := .live } ∧
    ((ProviderObject.new unknown tables).run
      [.queryInterface IID_IUnknown, .queryInterface IID_IUnknown,
        .queryInterface IID_IUnknown, .release, .release, .release, .release]).1 =
      { unknown := unknown, tables := tables, refCount := 0, state := .freed } := by
  have hq : ∀ q : ProviderObject, q.state = .live →
      QueryInterface q IID_IUnknown = ({ q with refCount := q.refCount + 1 }, .table q.unknown) := by
    intro q hq
    simp [QueryInterface, ProviderObject.interfaces, List.find?, GUID.eq, IID_IUnknown, hq]
  refine ⟨⟨rfl, rfl⟩, ?_, ?_, ?_, ?_, ?_, ?_, ?_, ?_, ?_⟩
  · intro a ha
    unfold QueryInterface at ha ⊢
    simp only [hlive] at ha ⊢
    split at ha <;> simp_all
  · intro h
    unfold QueryInterface at h ⊢
    simp only [hlive] at h ⊢
    split at h <;> simp_all
  · unfold QueryInterface
    simp only [hlive]
    split <;> simp
  · unfold Release
    simp only [hlive]
    split <;> simp <;> omega
  · unfold Release
    simp only [hlive]
    split <;> simp_all
  · unfold Release
    simp only [hlive]
    split <;> simp_all
  · simp [ProviderObject.run, ProviderObject.step, hq, ProviderObject.new]
  · simp [ProviderObject.run, ProviderObject.step, hq, ProviderObject.new, Release]
  · simp [ProviderObject.run, ProviderObject.step, hq, ProviderObject.new, Release]

/-- C22 on a new provider composed of the Simple, Fragment and Invoke tables,
queried for its Fragment table. -/
theorem C22_reference_count_witness :
    (QueryInterface (ProviderObject.new 0x1000 ⟨0x2000, 0x3000, 0, 0x4000, 0, 0⟩)
      IID_IRawElementProviderFragment).2 = .table 0x3000 ∧
    (QueryInterface (ProviderObject.new 0x1000 ⟨0x2000, 0x3000, 0, 0x4000, 0, 0⟩)
      IID_IRawElementProviderFragment).1.refCount = 1 + 1 :=
  ⟨by decide,
    ((C22_reference_count (ProviderObject.new 0x1000 ⟨0x2000, 0x3000, 0, 0x4000, 0, 0⟩) rfl
      (by decide) IID_IRawElementProviderFragment 0x1000 ⟨0x2000, 0x3000, 0, 0x4000, 0, 0⟩).2.1
      0x3000 (by decide)).1⟩

/-- C23: after Disconnect on a live provider, and after any sequence of later
QueryInterface, AddRef, Release and capability calls, a capability-table call
returns the Disconnected failure; the object stays disconnected as Disconnect
left it and is never freed, and no call of the sequence is a call on a freed
object. UiaDisconnectProvider returns an error exactly when the platform answers
a non-zero status. -/
theorem C23_disconnect (p : ProviderObject) (hlive : p.state = .live)
    (ops : List ProviderOp) (slot : Nat) (plat : Platform) (pProvider : Nat) :
    (CapabilityCall ((Disconnect p).run ops).1 slot).2 = .disconnected ∧
    ((Disconnect p).run ops).1 = Disconnect p ∧
    ((Disconnect p).run ops).1.state = .disconnected ∧
    ((Disconnect p).run ops).1.state ≠ .freed ∧
    (∀ r ∈ ((Disconnect p).run ops).2, r ≠ .undefined) ∧
    ((UiaDisconnectProvider plat pProvider).1 ≠ none ↔
      plat "UiaDisconnectProvider" [pProvider] ≠ 0) ∧
    Event.calls (UiaDisconnectProvider plat pProvider).2 =
      [("UiaDisconnectProvider", [pProvider])] := by
  have hd := (Disconnect_of_live p hlive).1
  have hrun := run_of_disconnected (Disconnect p) hd ops
  refine ⟨?_, hrun.1, ?_, ?_, hrun.2, ?_, ?_⟩
  · rw [hrun.1]
    simp [CapabilityCall, hd]
  · rw [hrun.1]
    exact hd
  · rw [hrun.1, hd]
    decide
  · unfold UiaDisconnectProvider
    by_cases h : plat "UiaDisconnectProvider" [pProvider] = 0 <;> simp [h]
  · unfold UiaDisconnectProvider
    by_cases h : plat "UiaDisconnectProvider" [pProvider] = 0 <;> simp [h, Event.calls]

/-- C23 on a provider with two outstanding references, disconnected and then
released twice before a capability call. -/
theorem C23_disconnect_witness :
    (CapabilityCall
      ((Disconnect (AddRef (ProviderObject.new 0x1000 ⟨0x2000, 0x3000, 0, 0x4000, 0, 0⟩)).1).run
        [.release, .release, .addRef]).1 3).2 = .disconnected :=
  (C23_disconnect (AddRef (ProviderObject.new 0x1000 ⟨0x2000, 0x3000, 0, 0x4000, 0, 0⟩)).1 rfl
    [.release, .release, .addRef] 3 (fun _ _ => 0) 0x1000).1

/-! ## Layout of the wire record -/

/-- C24: on a 64-bit target the Variant record is 24 bytes, with the tag VT at
offset 0, the reserved fields at 2, 4, 6 and the payload Val at 8; on a 32-bit
target it is 16 bytes with Val at 8; the size is that of the type, whatever
value is stored. -/
theorem C24_Variant_layout (v : Variant) :
    Variant.sizeof .p64 v = 24 ∧ Variant.sizeof .p32 v = 16 ∧
    (layout .p64 Variant.decl).map (fun p => (p.1.name, p.1.type.size .p64, p.2)) =
      [("_", 0, 0), ("VT", 2, 0), ("Reserved1", 2, 2), ("Reserved2", 2, 4),
        ("Reserved3", 2, 6), ("Val", 8, 8), ("_", 8, 16)] ∧
    (layout .p32 Variant.decl).map (fun p => (p.1.name, p.1.type.size .p32, p.2)) =
      [("_", 0, 0), ("VT", 2, 0), ("Reserved1", 2, 2), ("Reserved2", 2, 4),
        ("Reserved3", 2, 6), ("Val", 4, 8), ("_", 4, 12)] ∧
    offsetOf .p64 Variant.decl "Val" = some Variant.offsetVal ∧
    offsetOf .p32 Variant.decl "Val" = some Variant.offsetVal := by
  refine ⟨?_, ?_, by decide, by decide, by decide, by decide⟩
  · show structSize .p64 Variant.decl = 24
    decide
  · show structSize .p32 Variant.decl = 16
    decide

/-! ## Window-long accessors and window constants -/

/-- C25: GetWindowLong and SetWindowLong each make exactly one platform call,
with the given handle and index: of GetWindowLongW / SetWindowLongW exactly when
the architecture is "386", of GetWindowLongPtrW / SetWindowLongPtrW on every
other architecture. -/
theorem C25_window_long_entry_point (goarch : String) (plat : Platform)
    (hwnd index style : Nat) :
    Event.calls (GetWindowLong goarch plat hwnd index).2 =
      [(if goarch = "386" then "GetWindowLongW" else "GetWindowLongPtrW", [hwnd, index])] ∧
    (Event.calls (GetWindowLong goarch plat hwnd index).2 = [("GetWindowLongW", [hwnd, index])] ↔
      goarch = "386") ∧
    (GetWindowLong goarch plat hwnd index).1 =
      plat (if goarch = "386" then "GetWindowLongW" else "GetWindowLongPtrW") [hwnd, index] ∧
    Event.calls (SetWindowLong goarch hwnd index style) =
      [(if goarch = "386" then "SetWindowLongW" else "SetWindowLongPtrW",
        [hwnd, index, style])] ∧
    (Event.calls (SetWindowLong goarch hwnd index style) =
        [("SetWindowLongW", [hwnd, index, style])] ↔ goarch = "386") := by
  by_cases h : goarch = "386" <;>
    simp [GetWindowLong, SetWindowLong, Event.calls, h]

/-- C26: GWL_STYLE is -16 in pointer-width two's complement, and on a 32-bit
target HWND_TOPMOST reaches the platform as -1; but HWND_TOPMOST is the uint32
0xFFFFFFFF and SetWindowPos widens it without sign, so on a 64-bit target the
platform receives 0x00000000FFFFFFFF, not the handle -1 (2^64 - 1). -/
theorem C26_HWND_TOPMOST_zero_extended :
    (∀ ps : PtrSize, GWL_STYLE ps = 2 ^ ps.bits - 16 ∧ GWL_STYLE ps = uintptrOfInt ps (-16)) ∧
    HWND_TOPMOST = 2 ^ 32 - 1 ∧
    SetWindowPos .p32 0x1234 HWND_TOPMOST 0 0 0 0 3 =
      [.call "SetWindowPos" [0x1234, uintptrOfInt .p32 (-1), 0, 0, 0, 0, 3]] ∧
    SetWindowPos .p64 0x1234 HWND_TOPMOST 0 0 0 0 3 =
      [.call "SetWindowPos" [0x1234, 0xFFFFFFFF, 0, 0, 0, 0, 3]] ∧
    SetWindowPos .p64 0x1234 HWND_TOPMOST 0 0 0 0 3 ≠
      [.call "SetWindowPos" [0x1234, uintptrOfInt .p64 (-1), 0, 0, 0, 0, 3]] ∧
    uintptrOfInt .p64 (-1) = 2 ^ 64 - 1 := by
  refine ⟨fun ps => by cases ps <;> decide, by decide, by decide, by decide, by decide,
    by decide⟩

/-! ## Interface identities are distinct -/

/-- C27: the ten declared interface identities are pairwise unequal, under == and
as 16-byte encodings, IID_IUnknown is 00000000-0000-0000-C000-000000000046, and
a requested identity equals at most one of the ten. -/
theorem C27_IIDs_pairwise_distinct :
    allIIDs.length = 10 ∧
    allIIDs.Pairwise (fun a b => GUID.eq a b = false) ∧
    (allIIDs.map GUID.bytes).Nodup ∧
    IID_IUnknown.bytes = [0, 0, 0, 0, 0, 0, 0, 0, 0xC0, 0, 0, 0, 0, 0, 0, 0x46] ∧
    ∀ g : GUID, (allIIDs.filter (fun a => GUID.eq a g)).length ≤ 1 := by
  refine ⟨by decide, by decide, by decide, by decide, ?_⟩
  intro g
  have hnd : allIIDs.Nodup := by decide
  have hf : allIIDs.filter (fun a => GUID.eq a g) = allIIDs.filter (fun a => a == g) :=
    List.filter_congr (fun a _ => GUID_eq_eq_beq a g)
  rw [hf, ← List.countP_eq_length_filter, ← List.count_eq_countP]
  exact List.nodup_iff_count_le_one.mp hnd g

/-! ## Timers -/

/-- C28: KillTimer(hwnd, id) makes one platform call, and it is a call of the
SetTimer entry point with (hwnd, id, 0, 0), the call SetTimer(hwnd, id, 0, 0)
makes; the KillTimer entry point is not called. The error is non-nil exactly
when that call answers 0. -/
theorem C28_KillTimer_calls_SetTimer (ps : PtrSize) (plat : Platform) (lastErr : String)
    (hwnd nIDEvent : Nat) :
    Event.calls (KillTimer plat lastErr hwnd nIDEvent).2 = [("SetTimer", [hwnd, nIDEvent, 0, 0])] ∧
    Event.calls (KillTimer plat lastErr hwnd nIDEvent).2 ≠ [("KillTimer", [hwnd, nIDEvent])] ∧
    (KillTimer plat lastErr hwnd nIDEvent).2 = (SetTimer ps plat lastErr hwnd nIDEvent 0 0).2 ∧
    ((KillTimer plat lastErr hwnd nIDEvent).1 ≠ none ↔
      plat "SetTimer" [hwnd, nIDEvent, 0, 0] = 0) := by
  have h0 : uintptrOfNat ps 0 = 0 := by simp [uintptrOfNat]
  by_cases h : plat "SetTimer" [hwnd, nIDEvent, 0, 0] = 0 <;>
    simp [KillTimer, SetTimer, Event.calls, h, h0]

/-! ## Window placement -/

/-- C29: for integers l, t, r, b within the int32 range, Rect after Set(l, t, r,
b) is the rectangle (l, t, r, b); Set leaves length, flags, showCmd,
ptMinPosition, ptMaxPosition and rcDevice as they were, so IsMinimized and
IsMaximized answer as before; and the two are never both true. -/
theorem C29_WindowPlacement_Set_Rect (p : WindowPlacement) (l t r b : Int)
    (hl : -(2 : Int) ^ 31 ≤ l ∧ l < (2 : Int) ^ 31) (ht : -(2 : Int) ^ 31 ≤ t ∧ t < (2 : Int) ^ 31)
    (hr : -(2 : Int) ^ 31 ≤ r ∧ r < (2 : Int) ^ 31)
    (hb : -(2 : Int) ^ 31 ≤ b ∧ b < (2 : Int) ^ 31) :
    (p.Set l t r b).Rect = { Left := l, Top := t, Right := r, Bottom := b } ∧
    (p.Set l t r b).length = p.length ∧ (p.Set l t r b).flags = p.flags ∧
    (p.Set l t r b).showCmd = p.showCmd ∧
    (p.Set l t r b).ptMinPosition = p.ptMinPosition ∧
    (p.Set l t r b).ptMaxPosition = p.ptMaxPosition ∧
    (p.Set l t r b).rcDevice = p.rcDevice ∧
    (p.Set l t r b).IsMinimized = p.IsMinimized ∧
    (p.Set l t r b).IsMaximized = p.IsMaximized ∧
    ¬ (p.IsMinimized = true ∧ p.IsMaximized = true) := by
  refine ⟨?_, rfl, rfl, rfl, rfl, rfl, rfl, rfl, rfl, ?_⟩
  · simp [WindowPlacement.Set, WindowPlacement.Rect, int32OfInt_of_inRange l hl.1 hl.2,
      int32OfInt_of_inRange t ht.1 ht.2, int32OfInt_of_inRange r hr.1 hr.2,
      int32OfInt_of_inRange b hb.1 hb.2]
  · simp only [WindowPlacement.IsMinimized, WindowPlacement.IsMaximized, beq_iff_eq,
      SW_SHOWMINIMIZED, SW_SHOWMAXIMIZED]
    omega

/-- C29 on a minimized placement, with the extreme int32 values among the
arguments. -/
theorem C29_WindowPlacement_Set_Rect_witness :
    (({ length := 44, flags := 0, showCmd := SW_SHOWMINIMIZED, ptMinPosition := ⟨0, 0⟩,
        ptMaxPosition := ⟨0, 0⟩, rcNormalPosition := ⟨1, 2, 3, 4⟩,
        rcDevice := ⟨5, 6, 7, 8⟩ } : WindowPlacement).Set (-2147483648) (-1) 2147483647 600).Rect =
      { Left := -2147483648, Top := -1, Right := 2147483647, Bottom := 600 } :=
  (C29_WindowPlacement_Set_Rect _ (-2147483648) (-1) 2147483647 600
    ⟨by decide, by decide⟩ ⟨by decide, by decide⟩ ⟨by decide, by decide⟩
    ⟨by decide, by decide⟩).1

/-! ## Frame of the setters -/

/-- C30: for every argument, SetBool and SetInt32 change only VT and Val (the
reserved fields and the blank field are unchanged), and the VT and Val they
leave depend only on the argument, not on the prior contents; ToGoValue changes
no field; for a VT_I4 Variant ToGoValue returns the signed reading of the low 32
bits of Val whatever the upper bits hold; and SetInt32 of a negative int32 j
stores 2^w + j. -/
theorem C30_setter_frame (ps : PtrSize) (self : Nat) (after : List Nat) (v w : Variant)
    (b : Bool) (i j : Int) (hlo : -(2 : Int) ^ 31 ≤ j) (hneg : j < 0) :
    ((SetBool ps v b).Reserved1 = v.Reserved1 ∧ (SetBool ps v b).Reserved2 = v.Reserved2 ∧
      (SetBool ps v b).Reserved3 = v.Reserved3 ∧ (SetBool ps v b).pad = v.pad) ∧
    ((SetInt32 ps v i).Reserved1 = v.Reserved1 ∧ (SetInt32 ps v i).Reserved2 = v.Reserved2 ∧
      (SetInt32 ps v i).Reserved3 = v.Reserved3 ∧ (SetInt32 ps v i).pad = v.pad) ∧
    ((SetBool ps v b).VT = (SetBool ps w b).VT ∧ (SetBool ps v b).Val = (SetBool ps w b).Val) ∧
    ((SetInt32 ps v i).VT = (SetInt32 ps w i).VT ∧
      (SetInt32 ps v i).Val = (SetInt32 ps w i).Val) ∧
    (ToGoValueRun ps self after v).1 = v ∧
    (∀ hi : Nat, ToGoValue ps self after { v with VT := VT_I4, Val := v.Val % 2 ^ 32 + hi * 2 ^ 32 } =
      some (.int32 (int32OfWord (v.Val % 2 ^ 32)))) ∧
    (((SetInt32 ps v j).Val : Nat) : Int) = (2 : Int) ^ ps.bits + j := by
  refine ⟨?_, ⟨rfl, rfl, rfl, rfl⟩, ?_, ⟨rfl, rfl⟩, rfl, ?_, ?_⟩
  · cases b <;> exact ⟨rfl, rfl, rfl, rfl⟩
  · cases b <;> exact ⟨rfl, rfl⟩
  · intro hi
    have h : (v.Val % 2 ^ 32 + hi * 2 ^ 32) % 2 ^ 32 = v.Val % 2 ^ 32 % 2 ^ 32 := by
      omega
    simp only [ToGoValue, VT_I4, if_true, int32OfWord, h]
  · cases ps <;> simp only [SetInt32, uintptrOfInt, PtrSize.bits] <;> norm_num at hlo ⊢ <;> omega

/-- C30 on a 64-bit target, from two different prior records: the frame of
SetInt32 at the non-negative argument 7, the stored word at j = -1. -/
theorem C30_setter_frame_witness :
    (-(2 : Int) ^ 31 ≤ (-1 : Int) ∧ (-1 : Int) < 0) ∧
    ((SetInt32 .p64 (SetBool .p64 Variant.zero true) 7).Reserved1 =
        (SetBool .p64 Variant.zero true).Reserved1 ∧
      (SetInt32 .p64 (SetBool .p64 Variant.zero true) 7).Reserved2 =
        (SetBool .p64 Variant.zero true).Reserved2 ∧
      (SetInt32 .p64 (SetBool .p64 Variant.zero true) 7).Reserved3 =
        (SetBool .p64 Variant.zero true).Reserved3 ∧
      (SetInt32 .p64 (SetBool .p64 Variant.zero true) 7).pad =
        (SetBool .p64 Variant.zero true).pad) ∧
    (((SetInt32 .p64 (SetBool .p64 Variant.zero true) (-1)).Val : Nat) : Int) =
      (2 : Int) ^ 64 + (-1) :=
  ⟨⟨by decide, by decide⟩,
    (C30_setter_frame .p64 0x1000 [] (SetBool .p64 Variant.zero true) Variant.zero true 7 (-1)
      (by decide) (by decide)).2.1,
    (C30_setter_frame .p64 0x1000 [] (SetBool .p64 Variant.zero true) Variant.zero true 7 (-1)
      (by decide) (by decide)).2.2.2.2.2.2⟩

end windows
